import Mathlib

/-!
Verification development for the KISSlicer G-code post-processor
(slicer_kisslicer.py): layer segmentation, header interpretation and
purge-tower slot allocation, shallowly embedded in Lean.

Python machine values are modelled as follows: byte strings become
`String`, `float` values become `Rat` (the slicer dialect only carries
plain decimal literals), `int` becomes `Int`, raised exceptions become
`Except PyError`.
-/

namespace FS

/-- Exceptions that the embedded code can raise, mirroring the Python
exception classes that the source can actually produce. -/
inductive PyError where
  | valueError
  | indexError
  | keyError
  | attributeError
  deriving DecidableEq, Repr

/-- Result of the external line classifier for a command token: either a
tool-change instruction selecting tool `t`, or any other command.
Modelled from the spec: the Line Classifier recognizes tool-change
commands and reports the selected tool index. -/
inductive CmdK where
  | tool (t : Nat)
  | other
  deriving DecidableEq, Repr

/-- One classified input line: an optional command token and an optional
trailing comment text, as produced by the external line classifier. -/
structure CLine where
  cmd : Option CmdK
  comment : Option String
  deriving DecidableEq, Repr

/-- Layer action tags ACT_SWITCH, ACT_INFILL, ACT_PASS. -/
inductive Act where
  | switch
  | infill
  | pass
  deriving DecidableEq, Repr

/-- A layer: ordered container of classified lines for one print height.
Modelled from the spec for the external Layer class: `action` and
`tower_slots` are unset (none / 0) until allocation runs; the perimeter
fields are unset until parse_perimeter_rates runs. -/
structure GLayer where
  num : Nat
  z : Rat
  height : Rat
  lines : List CLine
  action : Option Act := none
  tower_slots : Nat := 0
  outer_perimeter_speed : Option Rat := none
  outer_perimeter_feedrate : Option Rat := none
  deriving DecidableEq, Repr

/-- Modelled from the spec: Layer.has_tool_changes is the derived boolean
that is true iff any command among the layer lines is a tool-change
instruction. -/
def has_tool_changes (l : GLayer) : Bool :=
  l.lines.any fun ln =>
    match ln.cmd with
    | some (CmdK.tool _) => true
    | _ => false

/-- Boolean list-prefix test over characters. -/
def isPrefixL : List Char → List Char → Bool
  | [], _ => true
  | _ :: _, [] => false
  | p :: ps, c :: cs => p == c && isPrefixL ps cs

/-- Does the pattern occur as a contiguous sublist? This models the
Python containment test on byte strings. -/
def occursL (pat : List Char) : List Char → Bool
  | [] => isPrefixL pat []
  | c :: cs => isPrefixL pat (c :: cs) || occursL pat cs

/-- Python substring containment test b"key" in comment. -/
def strContains (s key : String) : Bool :=
  occursL key.data s.data

/-- Consume an exact literal from the front of a character list, as an
anchored regex literal does; none when the literal is not a prefix. -/
def dropLit : List Char → List Char → Option (List Char)
  | [], cs => some cs
  | _ :: _, [] => none
  | p :: ps, c :: cs => if p == c then dropLit ps cs else none

/-- Decimal value of a digit list, most significant first. -/
def digitsVal (cs : List Char) : Nat :=
  cs.foldl (fun n c => n * 10 + (c.toNat - 48)) 0

/-- Python int() on a text token: succeeds only on an optionally signed
run of decimal digits; anything else (in particular a token containing a
dot) raises ValueError, which callers turn into PyError.valueError. -/
def pyInt (s : String) : Option Int :=
  match s.data with
  | [] => none
  | '-' :: rest =>
    if rest ≠ [] && rest.all Char.isDigit then some (-(digitsVal rest : Int)) else none
  | cs => if cs.all Char.isDigit then some ((digitsVal cs : Int)) else none

/-- Power of ten used for fractional parts. -/
def pow10 (n : Nat) : Nat := 10 ^ n

/-- Core of the decimal parser: digits, optionally a dot and more digits. -/
def pyFloatCore (cs : List Char) : Option Rat :=
  let ip := cs.takeWhile Char.isDigit
  let rest := cs.dropWhile Char.isDigit
  match rest with
  | [] => if ip = [] then none else some ((digitsVal ip : Rat))
  | '.' :: fp =>
    if fp.all Char.isDigit && (ip ≠ [] || fp ≠ []) then
      some ((digitsVal ip : Rat) + (digitsVal fp : Rat) / ((pow10 fp.length : Nat) : Rat))
    else none
  | _ => none

/-- Python float() on a text token, restricted to the plain (optionally
signed) decimal literals the slicer dialect emits; anything else is a
parse failure, which callers turn into PyError.valueError. -/
def pyFloat (s : String) : Option Rat :=
  match s.data with
  | '-' :: rest => (pyFloatCore rest).map (fun r => -r)
  | cs => pyFloatCore cs

/-- Python list split on a fixed separator (p :: ps), non-overlapping,
left to right; mirrors bytes.split. Every step consumes at least one
character, so the input length is enough fuel; the fuel only makes the
recursion structural. -/
def splitGo (p : Char) (ps : List Char) : Nat → List Char → List (List Char)
  | _, [] => [[]]
  | 0, cs => [cs]
  | fuel + 1, c :: cs =>
    if isPrefixL (p :: ps) (c :: cs) then
      [] :: splitGo p ps fuel (cs.drop ps.length)
    else
      match splitGo p ps fuel cs with
      | [] => [[c]]
      | g :: gs => (c :: g) :: gs

/-- Python list split on a fixed separator, fuelled by the input length. -/
def splitOnL (p : Char) (ps : List Char) (cs : List Char) : List (List Char) :=
  splitGo p ps cs.length cs

/-- Python comment.split(b" = ")[1]: the text between the first and
second occurrence of the delimiter; IndexError when the delimiter does
not occur. -/
def pySplitArg (c : String) : Except PyError String :=
  match splitOnL ' ' ['=', ' '] c.data with
  | _ :: v :: _ => Except.ok (String.mk v)
  | _ => Except.error PyError.indexError

/-- Greedy match of the regex fragment (for digits, dots, digits); exact
here because the characters that may follow the captured group in both
layer-marker positions are never digits or dots. Returns the captured
text and the remainder. -/
def numTok (cs : List Char) : Option (List Char × List Char) :=
  let d1 := cs.takeWhile Char.isDigit
  let r1 := cs.dropWhile Char.isDigit
  if d1 = [] then none
  else
    let dots := r1.takeWhile (fun c => c == '.')
    let r2 := r1.dropWhile (fun c => c == '.')
    let d2 := r2.takeWhile Char.isDigit
    let r3 := r2.dropWhile Char.isDigit
    some (d1 ++ dots ++ d2, r3)

/-- Anchored match of LAYER_START_RE against a comment: the literal
marker text, a captured height token, the thickness literal, and a
captured thickness token. -/
def LAYER_START_RE_match (c : String) : Option (String × String) :=
  match dropLit ("BEGIN_LAYER_OBJECT z=".data) c.data with
  | none => none
  | some r1 =>
    match numTok r1 with
    | none => none
    | some (g1, r2) =>
      match dropLit (" z_thickness=".data) r2 with
      | none => none
      | some r3 =>
        match numTok r3 with
        | none => none
        | some (g2, _) => some (String.mk g1, String.mk g2)

/-- check_layer_change on a comment line, called (as in parse_layers)
with current_layer = None: on a marker match the source computes
int(group 1) and float(group 2), either of which can raise ValueError;
on no match it returns the None that was passed in. -/
def check_layer_change (c : String) : Except PyError (Option (Int × Rat)) :=
  match LAYER_START_RE_match c with
  | none => Except.ok none
  | some (g1, g2) =>
    match pyInt g1 with
    | none => Except.error PyError.valueError
    | some z =>
      match pyFloat g2 with
      | none => Except.error PyError.valueError
      | some h => Except.ok (some (z, h))

/-- Append one classified line to a layer (Layer.add_line). -/
def addLine (l : GLayer) (ln : CLine) : GLayer :=
  {l with lines := l.lines ++ [ln]}

/-- Python truthiness of the comment field: None and the empty text are
falsy. -/
def truthyTxt (o : Option String) : Option String :=
  match o with
  | some c => if c = "" then none else some c
  | none => none

/-- The decimal 0.2, the provisional height and thickness of FirstLayer. -/
def r02 : Rat := ⟨1, 5, by norm_num, by norm_num⟩

/-- The decimal 0.05 assigned by parse_perimeter_rates. -/
def r005 : Rat := ⟨1, 20, by norm_num, by norm_num⟩

/-- Segmentation loop of parse_layers: threads the current-layer
accumulator and the layer counter over the classified line stream. The
first marker fills in the first layer in place; every later marker
closes the accumulator and opens a new layer; every line is appended to
whichever layer is current after the boundary test. -/
def parse_layers_aux (cur : GLayer) (n : Nat) : List CLine → Except PyError (List GLayer)
  | [] => Except.ok [cur]
  | ln :: rest =>
    match truthyTxt ln.comment with
    | none => parse_layers_aux (addLine cur ln) n rest
    | some c =>
      match check_layer_change c with
      | Except.error e => Except.error e
      | Except.ok none => parse_layers_aux (addLine cur ln) n rest
      | Except.ok (some (z, h)) =>
        if cur.num = 1 ∧ n = 0 then
          parse_layers_aux (addLine {cur with z := (z : Rat), height := h} ln) 1 rest
        else
          (parse_layers_aux (addLine {num := n + 1, z := (z : Rat), height := h, lines := []} ln)
              (n + 1) rest).map (fun ls => cur :: ls)

/-- parse_layers: stream the classified lines into layers, starting from
FirstLayer(1, 0.2, 0.2) and appending the final accumulator at the end. -/
def parse_layers (input : List CLine) : Except PyError (List GLayer) :=
  parse_layers_aux {num := 1, z := r02, height := r02, lines := []} 0 input

/-- One step of the descending slot scan in filter_layers, on the pair
(slots, count) and the tool-change requirement lrs of the height being
visited: a deficit (lrs greater than slots) increments count; when count
reaches 3, slots is set to lrs and count resets; the value recorded for
the height is the slots value after any update. -/
def scanStep (sc : Nat × Nat) (lrs : Nat) : (Nat × Nat) × Nat :=
  let c2 := if sc.1 < lrs then sc.2 + 1 else sc.2
  if 3 ≤ c2 then ((lrs, 0), lrs) else ((sc.1, c2), sc.1)

/-- The per-height slot record built by the descending scan, pairing
each height with the slots value recorded when it was visited
(layer_data of z at key slots). -/
def scanRecords : Nat × Nat → List (Rat × Nat) → List (Rat × Nat)
  | _, [] => []
  | sc, (z, lrs) :: rest =>
    (z, (scanStep sc lrs).2) :: scanRecords (scanStep sc lrs).1 rest

/-- The slots value left after the whole descending scan; filter_layers
stores it as self.max_slots. -/
def scanFinal : Nat × Nat → List (Rat × Nat) → Nat
  | sc, [] => sc.1
  | sc, (_, lrs) :: rest => scanFinal (scanStep sc lrs).1 rest

/-- The group of layers at one height, in input order: the dict bucket
layer_data of z at key layers. -/
def bucket (L : List GLayer) (z : Rat) : List GLayer :=
  L.filter (fun l => decide (l.z = z))

/-- The distinct heights of the run, ascending: sorted(layer_data.keys()). -/
def zsOf (L : List GLayer) : List Rat :=
  List.insertionSort (· ≤ ·) (L.map (fun l => l.z)).dedup

/-- Required tool-change count of one height: the sum of
has_tool_changes over the layers of its bucket. -/
def reqOf (L : List GLayer) (z : Rat) : Nat :=
  (bucket L z).countP (fun l => has_tool_changes l)

/-- The (height, requirement) pairs in the descending visiting order of
the allocation scan. -/
def pairsDesc (L : List GLayer) : List (Rat × Nat) :=
  (zsOf L).reverse.map (fun z => (z, reqOf L z))

/-- The height-to-recorded-slots table of the run, scan started at
slots 1, count 0. -/
def slot_records (L : List GLayer) : List (Rat × Nat) :=
  scanRecords (1, 0) (pairsDesc L)

/-- Lookup in the slot table (dict access layer_data of z at key slots);
heights are distinct so the first hit is the entry. -/
def lookupSlots (z : Rat) : List (Rat × Nat) → Nat
  | [] => 0
  | (w, s) :: rest => if w = z then s else lookupSlots z rest

/-- Recorded slot capacity of the bucket at height z. -/
def slots_for (L : List GLayer) (z : Rat) : Nat :=
  lookupSlots z (slot_records L)

/-- First tagging loop over a bucket: every layer receives the bucket
capacity in tower_slots, and every tool-change layer is tagged SWITCH. -/
def tagFirst (cap : Nat) (ls : List GLayer) : List GLayer :=
  ls.map fun l =>
    if has_tool_changes l then {l with action := some Act.switch, tower_slots := cap}
    else {l with tower_slots := cap}

/-- Second tagging loop over a bucket: layers without tool changes are
tagged INFILL while slots_filled is below capacity, then PASS. -/
def tagSecond (cap : Nat) : Nat → List GLayer → List GLayer
  | _, [] => []
  | filled, l :: rest =>
    if has_tool_changes l then l :: tagSecond cap filled rest
    else if filled < cap then
      {l with action := some Act.infill} :: tagSecond cap (filled + 1) rest
    else
      {l with action := some Act.pass} :: tagSecond cap filled rest

/-- Action tagging of one bucket: the first loop fills slots_filled with
the number of tool-change layers, the second loop distributes the
remaining capacity. -/
def tagBucket (cap : Nat) (ls : List GLayer) : List GLayer :=
  tagSecond cap (ls.countP (fun l => has_tool_changes l)) (tagFirst cap ls)

/-- Ascending tagging pass of filter_layers: buckets with recorded
capacity 0 are skipped (their layers keep their previous action), all
others are tagged. -/
def tagAll (L : List GLayer) : List GLayer :=
  (zsOf L).flatMap fun z =>
    if slots_for L z = 0 then bucket L z else tagBucket (slots_for L z) (bucket L z)

/-- filter_layers: group by height, run the descending capacity scan,
tag each bucket in ascending height order, then flatten back sorted by
layer number (sorted with key layer.num). -/
def filter_layers (L : List GLayer) : List GLayer :=
  List.insertionSort (fun a b => a.num ≤ b.num) (tagAll L)

/-- Per-tool settings record. Modelled from the spec for the external
Extruder class: every field is unset until the Header Interpreter
assigns it. -/
structure Ext where
  tool : Int
  retract : Option Rat := none
  retract_speed : Option Rat := none
  z_hop : Option Rat := none
  wipe : Option Rat := none
  feed_rate_multiplier : Option Rat := none
  filament_type : Option String := none
  z_offset : Option Rat := none
  deriving DecidableEq, Repr

/-- Orchestrator state: the fields of the g-code file object that the
embedded phases read and write. tools is the configured tool count
(len(self.tools)); start_gcode_end is established by the out-of-scope
base-class print-settings pass and is taken as given. The three Bool
flags record whether the corresponding out-of-scope tower phases were
invoked. -/
structure PState where
  tools : Nat := 0
  layers : List GLayer := []
  start_gcode_end : Int := 0
  version : Option (Nat × Nat) := none
  stroke_x : Option Rat := none
  stroke_y : Option Rat := none
  origin_offset_x : Option Rat := none
  origin_offset_y : Option Rat := none
  machine_type : Option Int := none
  travel_xy_speed : Option Rat := none
  travel_z_speed : Option Rat := none
  first_layer_speed : Option Rat := none
  outer_perimeter_speed : Option Rat := none
  extruders : List (Int × Ext) := []
  filtered_layers : List GLayer := []
  max_slots : Nat := 0
  tower_position_set : Bool := false
  raft_added : Bool := false
  tool_change_added : Bool := false
  deriving DecidableEq, Repr

/-- Anchored match of the version regex against a comment: the literal
text, a captured major number, a dot, a captured minor number, then
anything. -/
def VERSION_RE_match (c : String) : Option (Nat × Nat) :=
  match dropLit (" version ".data) c.data with
  | none => none
  | some r1 =>
    let d1 := r1.takeWhile Char.isDigit
    let r2 := r1.dropWhile Char.isDigit
    if d1 = [] then none
    else
      match r2 with
      | '.' :: r3 =>
        let d2 := r3.takeWhile Char.isDigit
        if d2 = [] then none else some (digitsVal d1, digitsVal d2)
      | _ => none

/-- Anchored match of ext_re against a comment: the literal text then a
captured extruder number. The pattern is anchored at the start of the
comment, exactly as re.match is. -/
def ext_re_match (c : String) : Option Int :=
  match dropLit ("Material Settings for Extruder ".data) c.data with
  | none => none
  | some r1 =>
    let d1 := r1.takeWhile Char.isDigit
    if d1 = [] then none else some ((digitsVal d1 : Int))

/-- Dict key test on the extruder table. -/
def hasKey (k : Int) (ex : List (Int × Ext)) : Bool :=
  ex.any fun p => p.1 == k

/-- Update the record of one extruder; none models the KeyError raised
when the key is absent. -/
def setExt (k : Int) (f : Ext → Ext) : List (Int × Ext) → Option (List (Int × Ext))
  | [] => none
  | (k2, e) :: rest =>
    if k2 == k then some ((k2, f e) :: rest)
    else (setExt k f rest).map (fun r => (k2, e) :: r)

/-- The num_extruders loop: create Extruder(t) for each missing tool
index 0..n-1, in ascending order. -/
def ensureTools (n : Nat) (ex : List (Int × Ext)) : List (Int × Ext) :=
  (List.range n).foldl
    (fun ex2 t => if hasKey (t : Int) ex2 then ex2 else ex2 ++ [((t : Int), {tool := (t : Int)})]) ex

/-- Python truthiness of the current_tool variable: None and tool index
0 are both falsy, so the per-tool branches are skipped for them. -/
def ctTruthy (ct : Option Int) : Bool :=
  match ct with
  | some t => t != 0
  | none => false

/-- State threaded through the header loop: the file object, the local
z_offset variable, and the local current_tool variable. -/
abbrev HAcc := PState × Rat × Option Int

/-- Parse a decimal field value or raise: float(split arg) with both the
IndexError of the split and the ValueError of float(). -/
def floatArg (c : String) : Except PyError Rat :=
  match pySplitArg c with
  | Except.error e => Except.error e
  | Except.ok v =>
    match pyFloat v with
    | none => Except.error PyError.valueError
    | some r => Except.ok r

/-- Parse an integer field value or raise, as int(split arg). -/
def intArg (c : String) : Except PyError Int :=
  match pySplitArg c with
  | Except.error e => Except.error e
  | Except.ok v =>
    match pyInt v with
    | none => Except.error PyError.valueError
    | some r => Except.ok r

/-- One iteration of the parse_header loop on a classified line: command
lines are skipped, comment lines run through the elif chain of fixed key
patterns in source order; first matching branch wins. A line with
neither command nor text is blank and carries nothing to match. -/
def header_step (acc : HAcc) (ln : CLine) : Except PyError HAcc :=
  match ln.cmd with
  | some _ => Except.ok acc
  | none =>
    match ln.comment with
    | none => Except.ok acc
    | some c =>
      let st := acc.1
      let zoff := acc.2.1
      let ct := acc.2.2
      if strContains c " version" then
        match VERSION_RE_match c with
        | some v => Except.ok ({st with version := some v}, zoff, ct)
        | none => Except.ok acc
      else if strContains c "bed_size_x_mm =" then
        match floatArg c with
        | Except.error e => Except.error e
        | Except.ok r => Except.ok ({st with stroke_x := some r}, zoff, ct)
      else if strContains c "bed_size_y_mm =" then
        match floatArg c with
        | Except.error e => Except.error e
        | Except.ok r => Except.ok ({st with stroke_y := some r}, zoff, ct)
      else if strContains c "bed_offset_x_mm =" then
        match floatArg c with
        | Except.error e => Except.error e
        | Except.ok r => Except.ok ({st with origin_offset_x := some r}, zoff, ct)
      else if strContains c "bed_offset_y_mm =" then
        match floatArg c with
        | Except.error e => Except.error e
        | Except.ok r => Except.ok ({st with origin_offset_y := some r}, zoff, ct)
      else if strContains c "bed_offset_z_mm =" then
        match floatArg c with
        | Except.error e => Except.error e
        | Except.ok r => Except.ok (st, r, ct)
      else if strContains c "round_bed =" then
        match intArg c with
        | Except.error e => Except.error e
        | Except.ok r => Except.ok ({st with machine_type := some r}, zoff, ct)
      else if strContains c "travel_speed_mm_per_s =" then
        match floatArg c with
        | Except.error e => Except.error e
        | Except.ok r => Except.ok ({st with travel_xy_speed := some (r * 60), travel_z_speed := some (r * 60)}, zoff, ct)
      else if strContains c "num_extruders = " then
        match intArg c with
        | Except.error e => Except.error e
        | Except.ok r => Except.ok ({st with extruders := ensureTools r.toNat st.extruders}, zoff, ct)
      else if strContains c "first_layer_speed_mm_per_s =" then
        match floatArg c with
        | Except.error e => Except.error e
        | Except.ok r => Except.ok ({st with first_layer_speed := some (r * 60)}, zoff, ct)
      else if strContains c "Perimeter Speed =" then
        match floatArg c with
        | Except.error e => Except.error e
        | Except.ok r => Except.ok ({st with outer_perimeter_speed := some (r * 60)}, zoff, ct)
      else if strContains c "*** Material Settings for Extruder" then
        match ext_re_match c with
        | some n => Except.ok (st, zoff, some (n - 1))
        | none => Except.error PyError.attributeError
      else if ctTruthy ct && strContains c "destring_length =" then
        match floatArg c with
        | Except.error e => Except.error e
        | Except.ok r =>
          match setExt (ct.getD 0) (fun e => {e with retract := some r}) st.extruders with
          | none => Except.error PyError.keyError
          | some ex => Except.ok ({st with extruders := ex}, zoff, ct)
      else if ctTruthy ct && strContains c "destring_speed_mm_per_s =" then
        match floatArg c with
        | Except.error e => Except.error e
        | Except.ok r =>
          match setExt (ct.getD 0) (fun e => {e with retract_speed := some (r * 60)}) st.extruders with
          | none => Except.error PyError.keyError
          | some ex => Except.ok ({st with extruders := ex}, zoff, ct)
      else if ctTruthy ct && strContains c "Z_lift_mm =" then
        match floatArg c with
        | Except.error e => Except.error e
        | Except.ok r =>
          match setExt (ct.getD 0) (fun e => {e with z_hop := some r}) st.extruders with
          | none => Except.error PyError.keyError
          | some ex => Except.ok ({st with extruders := ex}, zoff, ct)
      else if ctTruthy ct && strContains c "wipe_mm =" then
        match floatArg c with
        | Except.error e => Except.error e
        | Except.ok r =>
          match setExt (ct.getD 0) (fun e => {e with wipe := some r}) st.extruders with
          | none => Except.error PyError.keyError
          | some ex => Except.ok ({st with extruders := ex}, zoff, ct)
      else if ctTruthy ct && strContains c "flowrate_tweak =" then
        match floatArg c with
        | Except.error e => Except.error e
        | Except.ok r =>
          match setExt (ct.getD 0) (fun e => {e with feed_rate_multiplier := some r}) st.extruders with
          | none => Except.error PyError.keyError
          | some ex => Except.ok ({st with extruders := ex}, zoff, ct)
      else if ctTruthy ct && strContains c "g_code_matl =" then
        match pySplitArg c with
        | Except.error e => Except.error e
        | Except.ok v =>
          match setExt (ct.getD 0) (fun e => {e with filament_type := some v}) st.extruders with
          | none => Except.error PyError.keyError
          | some ex => Except.ok ({st with extruders := ex}, zoff, ct)
      else if strContains c "firmware_type =" then
        match pySplitArg c with
        | Except.error e => Except.error e
        | Except.ok v =>
          if v ≠ "1" then Except.error PyError.valueError else Except.ok acc
      else
        Except.ok acc

/-- The header loop over a line list, short-circuiting on the first
raised exception. -/
def header_fold (acc : HAcc) : List CLine → Except PyError HAcc
  | [] => Except.ok acc
  | ln :: rest =>
    match header_step acc ln with
    | Except.error e => Except.error e
    | Except.ok acc2 => header_fold acc2 rest

/-- parse_header: fold the elif chain over every line of every layer,
then denormalize the final z_offset onto every extruder record. -/
def parse_header (st : PState) : Except PyError PState :=
  match header_fold (st, 0, none) (st.layers.flatMap (fun l => l.lines)) with
  | Except.error e => Except.error e
  | Except.ok (st2, zoff, _) =>
    Except.ok {st2 with extruders := st2.extruders.map (fun p => (p.1, {p.2 with z_offset := some zoff}))}

/-- Is a line the tool-change command selecting tool 0? This is the
condition cmd and is_tool_change(cmd) == 0 of parse_print_settings. -/
def isT0 (ln : CLine) : Bool :=
  match ln.cmd with
  | some (CmdK.tool 0) => true
  | _ => false

/-- Scan of the first layer in parse_print_settings: the index of the
first line whose index is strictly beyond start_gcode_end and whose
command selects tool 0; k is the index of the head of the remaining
list. -/
def find_t0 (startEnd : Int) : Nat → List CLine → Option Nat
  | _, [] => none
  | k, ln :: rest =>
    if startEnd < (k : Int) ∧ isT0 ln then some k else find_t0 startEnd (k + 1) rest

/-- KISS-specific part of parse_print_settings on the first layer lines:
delete the first tool-0 change found after the start g-code, if any. -/
def kiss_print_settings (startEnd : Int) (lns : List CLine) : List CLine :=
  match find_t0 startEnd 0 lns with
  | some i => lns.eraseIdx i
  | none => lns

/-- parse_print_settings: the out-of-scope base-class pass establishes
start_gcode_end (taken as given in the state); the KISS-specific part
then deletes the first post-start tool-0 change from the first layer.
Layers beyond the first are untouched. -/
def parse_print_settings (st : PState) : PState :=
  match st.layers with
  | [] => st
  | l0 :: rest =>
    {st with layers := {l0 with lines := kiss_print_settings st.start_gcode_end l0.lines} :: rest}

/-- The filter_layers phase on the orchestrator state: stores the tagged
flattened layer list and the final slots value of the descending scan. -/
def filter_layers_phase (st : PState) : PState :=
  {st with
    filtered_layers := filter_layers st.layers,
    max_slots := scanFinal (1, 0) (pairsDesc st.layers)}

/-- Field update of parse_perimeter_rates on one layer. -/
def perimUpd (sp : Option Rat) (l : GLayer) : GLayer :=
  {l with outer_perimeter_speed := sp, outer_perimeter_feedrate := some r005}

/-- parse_perimeter_rates: assigns the configured outer perimeter speed
and the fixed 0.05 feed rate to every layer. The Python loop mutates the
Layer objects, which are shared between self.layers and
self.filtered_layers, so the update is applied to both lists here. -/
def parse_perimeter_rates (st : PState) : PState :=
  {st with
    layers := st.layers.map (perimUpd st.outer_perimeter_speed),
    filtered_layers := st.filtered_layers.map (perimUpd st.outer_perimeter_speed)}

/-- Modelled from the spec: find_tower_position is an out-of-scope
collaborator; only its invocation is recorded. -/
def find_tower_position (st : PState) : PState :=
  {st with tower_position_set := true}

/-- Modelled from the spec: add_switch_raft is an out-of-scope
collaborator; only its invocation is recorded. -/
def add_switch_raft (st : PState) : PState :=
  {st with raft_added := true}

/-- Modelled from the spec: add_tool_change_gcode is an out-of-scope
collaborator; only its invocation is recorded. -/
def add_tool_change_gcode (st : PState) : PState :=
  {st with tool_change_added := true}

/-- process: the phase pipeline of the orchestrator. File opening and
saving are out-of-scope I/O; the in-scope phases run in source order,
and the three tower phases run only when more than one tool is
configured. -/
def process (st : PState) : Except PyError PState :=
  match parse_header st with
  | Except.error e => Except.error e
  | Except.ok st1 =>
    let st2 := parse_print_settings st1
    let st3 := filter_layers_phase st2
    let st4 := parse_perimeter_rates st3
    if st4.tools > 1 then
      Except.ok (add_tool_change_gcode (add_switch_raft (find_tower_position st4)))
    else
      Except.ok st4

/-- A line that carries no layer-start marker: its comment (if truthy)
does not match LAYER_START_RE. -/
def markerFree (ln : CLine) : Bool :=
  match truthyTxt ln.comment with
  | none => true
  | some c => (LAYER_START_RE_match c).isNone

/-- The condition under which the elif chain of parse_header reaches the
firmware_type branch on a comment, for every interpreter state: none of
the earlier branch keys occurs in the comment and the firmware key does.
The per-tool keys must be absent so that the current-tool guards cannot
divert the line. -/
def firmware_reached (c : String) : Prop :=
  strContains c " version" = false ∧
  strContains c "bed_size_x_mm =" = false ∧
  strContains c "bed_size_y_mm =" = false ∧
  strContains c "bed_offset_x_mm =" = false ∧
  strContains c "bed_offset_y_mm =" = false ∧
  strContains c "bed_offset_z_mm =" = false ∧
  strContains c "round_bed =" = false ∧
  strContains c "travel_speed_mm_per_s =" = false ∧
  strContains c "num_extruders = " = false ∧
  strContains c "first_layer_speed_mm_per_s =" = false ∧
  strContains c "Perimeter Speed =" = false ∧
  strContains c "*** Material Settings for Extruder" = false ∧
  strContains c "destring_length =" = false ∧
  strContains c "destring_speed_mm_per_s =" = false ∧
  strContains c "Z_lift_mm =" = false ∧
  strContains c "wipe_mm =" = false ∧
  strContains c "flowrate_tweak =" = false ∧
  strContains c "g_code_matl =" = false ∧
  strContains c "firmware_type =" = true

instance (c : String) : Decidable (firmware_reached c) := by
  unfold firmware_reached
  infer_instance

/-- The ten decimal- or integer-valued global header fields, in the
order their branches appear in the elif chain of parse_header. -/
def numeric_keys : List String :=
  ["bed_size_x_mm =", "bed_size_y_mm =", "bed_offset_x_mm =", "bed_offset_y_mm =",
   "bed_offset_z_mm =", "round_bed =", "travel_speed_mm_per_s =", "num_extruders = ",
   "first_layer_speed_mm_per_s =", "Perimeter Speed ="]

/-- The five decimal-valued per-tool header fields, in branch order. -/
def tool_keys : List String :=
  ["destring_length =", "destring_speed_mm_per_s =", "Z_lift_mm =", "wipe_mm =",
   "flowrate_tweak ="]

/-- The elif chain dispatches a comment to global numeric field number
i: the version key and every earlier numeric key are absent from the
comment and key i is present. The material and per-tool branches come
later in the chain, so they cannot claim such a line. -/
def global_field_reached (c : String) (i : Nat) : Prop :=
  i < numeric_keys.length ∧
  strContains c " version" = false ∧
  (∀ k ∈ numeric_keys.take i, strContains c k = false) ∧
  strContains c (numeric_keys.getD i "") = true

/-- The elif chain dispatches a comment to per-tool numeric field
number i, provided the current tool is truthy: the version key, every
global numeric key, the material boundary key and every earlier
per-tool key are absent from the comment and key i is present. -/
def tool_field_reached (c : String) (i : Nat) : Prop :=
  i < tool_keys.length ∧
  strContains c " version" = false ∧
  (∀ k ∈ numeric_keys, strContains c k = false) ∧
  strContains c "*** Material Settings for Extruder" = false ∧
  (∀ k ∈ tool_keys.take i, strContains c k = false) ∧
  strContains c (tool_keys.getD i "") = true

instance (c : String) (i : Nat) : Decidable (global_field_reached c i) := by
  unfold global_field_reached
  infer_instance

instance (c : String) (i : Nat) : Decidable (tool_field_reached c i) := by
  unfold tool_field_reached
  infer_instance

/-- The value parse performed by global numeric branch i: int() for
round_bed and num_extruders (branches 5 and 7), float() for the rest;
only success or the raised error matters here. -/
def global_arg (i : Nat) (c : String) : Except PyError Unit :=
  if i = 5 ∨ i = 7 then Except.map (fun _ => ()) (intArg c)
  else Except.map (fun _ => ()) (floatArg c)

/-- Example layer with one tool-change command line. -/
def tcL (n : Nat) (z : Rat) : GLayer :=
  {num := n, z := z, height := 1, lines := [⟨some (CmdK.tool 1), none⟩]}

/-- Example layer with one ordinary command line and no tool change. -/
def plainL (n : Nat) (z : Rat) : GLayer :=
  {num := n, z := z, height := 1, lines := [⟨some CmdK.other, none⟩]}

/-- Example run with five distinct heights whose descending tool-change
requirements are 2, 0, 2, 0, 2: the capacity deficit (2 required against
1 slot) holds at heights 5, 3 and 1 but never on even two consecutive
heights. -/
def Lex : List GLayer :=
  [tcL 1 1, tcL 2 1, plainL 3 2, tcL 4 3, tcL 5 3, plainL 6 4, tcL 7 5, tcL 8 5]

/-- Example single-tool orchestrator state with one plain layer. -/
def egSingle : PState :=
  {tools := 1, layers := [plainL 1 1], start_gcode_end := -1}

/-- Example command-only line used in segmentation witnesses. -/
def wLine : CLine := ⟨some CmdK.other, none⟩

/-- Example state whose only annotated line carries a rejected firmware
extrusion-mode value. -/
def egFirmware : PState :=
  {layers := [{num := 1, z := 1, height := 1, lines := [⟨none, some "firmware_type = 0"⟩]}]}

/-- Example state whose only annotated line carries a malformed decimal
in the bed-size field. -/
def egMalformed : PState :=
  {layers := [{num := 1, z := 1, height := 1, lines := [⟨none, some "bed_size_x_mm = abc"⟩]}]}

/-- Example state carrying a material-settings block boundary for
extruder 2 followed by a per-tool retract setting, exactly as the
documented header dialect emits them (comment text stripped of the
leading annotation marker). -/
def egMaterial : PState :=
  {layers := [{num := 1, z := 1, height := 1,
               lines := [⟨none, some "*** Material Settings for Extruder 2 ***"⟩,
                         ⟨none, some "destring_length = 3"⟩]}]}

/-- Example header-loop accumulator whose current tool is index 0 and
whose extruder table contains extruder 0. -/
def egAccT0 : HAcc :=
  ({extruders := [((0 : Int), {tool := 0})]}, 0, some 0)

/-- Example first layer carrying a start g-code command and two tool-0
changes after it, for the print-settings witness. -/
def egPrintL0 : GLayer :=
  {num := 1, z := 1, height := 1,
   lines := [⟨some CmdK.other, none⟩, ⟨some (CmdK.tool 0), none⟩,
             ⟨some (CmdK.tool 0), none⟩]}

/-- Example orchestrator state for the print-settings witness: the first
layer is egPrintL0 and the start g-code ends at line index 0. -/
def egPrint : PState :=
  {layers := [egPrintL0, plainL 2 2], start_gcode_end := 0}

/-- The tagged form of tcL 1 1 after allocation with capacity 1. -/
def switchL : GLayer :=
  {num := 1, z := 1, height := 1, lines := [⟨some (CmdK.tool 1), none⟩],
   action := some Act.switch, tower_slots := 1}

/-- The tagged form of plainL 1 1 after allocation with capacity 1. -/
def infillL : GLayer :=
  {num := 1, z := 1, height := 1, lines := [⟨some CmdK.other, none⟩],
   action := some Act.infill, tower_slots := 1}

/-- The state produced by running process on egSingle (egSingle itself
in the unreachable error case). -/
def egOut : PState :=
  match process egSingle with
  | Except.ok s => s
  | Except.error _ => egSingle

theorem parse_layers_aux_join : ∀ (input : List CLine) (cur : GLayer) (n : Nat) (lys : List GLayer),
    parse_layers_aux cur n input = Except.ok lys →
    (lys.map GLayer.lines).flatten = cur.lines ++ input := by
  intro input
  induction input with
  | nil =>
    intro cur n lys h
    simp only [parse_layers_aux, Except.ok.injEq] at h
    subst h
    simp
  | cons ln rest ih =>
    intro cur n lys h
    simp only [parse_layers_aux] at h
    split at h
    · have := ih _ _ _ h
      simpa [addLine] using this
    · split at h
      · exact absurd h (by simp)
      · have := ih _ _ _ h
        simpa [addLine] using this
      · split at h
        · have := ih _ _ _ h
          simpa [addLine] using this
        · cases haux : parse_layers_aux
              (addLine {num := n + 1, z := _, height := _, lines := []} ln) (n + 1) rest with
          | error e =>
            rw [haux] at h
            simp [Except.map] at h
          | ok lys2 =>
            rw [haux] at h
            simp only [Except.map, Except.ok.injEq] at h
            subst h
            have := ih _ _ _ haux
            simp only [addLine] at this
            simp only [List.map_cons, List.flatten_cons, this]
            simp

theorem parse_layers_aux_nomarker : ∀ (input : List CLine) (cur : GLayer) (n : Nat),
    (∀ ln ∈ input, markerFree ln = true) →
    parse_layers_aux cur n input = Except.ok [{cur with lines := cur.lines ++ input}] := by
  intro input
  induction input with
  | nil =>
    intro cur n _
    simp [parse_layers_aux]
  | cons ln rest ih =>
    intro cur n h
    have hln : markerFree ln = true := h ln (by simp)
    have hrest : ∀ l2 ∈ rest, markerFree l2 = true := fun l2 hm => h l2 (by simp [hm])
    cases htxt : truthyTxt ln.comment with
    | none =>
      simp only [parse_layers_aux, htxt]
      rw [ih (addLine cur ln) n hrest]
      simp [addLine]
    | some c =>
      have hmf : (LAYER_START_RE_match c).isNone = true := by
        simpa [markerFree, htxt] using hln
      have hclc : check_layer_change c = Except.ok none := by
        unfold check_layer_change
        cases hm : LAYER_START_RE_match c with
        | none => rfl
        | some p => rw [hm] at hmf; simp at hmf
      simp only [parse_layers_aux, htxt, hclc]
      rw [ih (addLine cur ln) n hrest]
      simp [addLine]

/-- C2: the layer-start marker handler calls int() on the captured z
value, so the z reported by the marker of the source's own documentation
example, 0.294, raises ValueError instead of yielding a layer with
z = 0.294; the (height, thickness) pair is never returned. -/
theorem c2_decimal_z_raises_value_error :
    check_layer_change "BEGIN_LAYER_OBJECT z=0.294 z_thickness=0.294" =
      Except.error PyError.valueError := by
  rfl

/-- C4 (counterexample): on an input consisting of one layer-start
marker with a fractional z, the segmenter propagates the ValueError of
the z conversion and produces no layers at all, so the concatenation of
the produced layers' lines is not the input line sequence. -/
theorem c4_counterexample :
    parse_layers [⟨none, some "BEGIN_LAYER_OBJECT z=0.294 z_thickness=0.294"⟩] =
      Except.error PyError.valueError := by
  rfl

/-- C4 (amended): whenever parse_layers completes without raising (in
particular whenever every matched marker carries a dot-free z capture),
the concatenation of the lines of the produced layers equals the input
line sequence in order with no loss or duplication; and an input without
any boundary marker yields exactly one layer, the first layer, holding
every input line. -/
theorem c4_completeness_on_success :
    (∀ input lys, parse_layers input = Except.ok lys →
      (lys.map GLayer.lines).flatten = input) ∧
    (∀ input, (∀ ln ∈ input, markerFree ln = true) →
      parse_layers input = Except.ok [{num := 1, z := r02, height := r02, lines := input}]) := by
  constructor
  · intro input lys h
    have := parse_layers_aux_join input _ 0 lys h
    simpa using this
  · intro input h
    have := parse_layers_aux_nomarker input {num := 1, z := r02, height := r02, lines := []} 0 h
    simpa using this

/-- Witness for c4_completeness_on_success at a concrete one-line input. -/
theorem c4_witness :
    (([({num := 1, z := r02, height := r02, lines := [wLine]} : GLayer)].map GLayer.lines).flatten
      = [wLine]) :=
  c4_completeness_on_success.1 [wLine]
    [{num := 1, z := r02, height := r02, lines := [wLine]}] (by rfl)

theorem find_t0_none : ∀ (lns : List CLine) (se : Int) (k : Nat), find_t0 se k lns = none →
    ∀ i ln, lns[i]? = some ln → ¬(se < ((k + i : Nat) : Int) ∧ isT0 ln = true) := by
  intro lns
  induction lns with
  | nil =>
    intro se k _ i ln hln
    simp at hln
  | cons l0 rest ih =>
    intro se k h i ln hln
    rw [find_t0] at h
    split at h
    · exact absurd h (by simp)
    · rename_i hcond
      cases i with
      | zero =>
        rw [List.getElem?_cons_zero] at hln
        injection hln with hln
        subst hln
        simpa using hcond
      | succ i2 =>
        rw [List.getElem?_cons_succ] at hln
        have := ih se (k + 1) h i2 ln hln
        have harith : ((k + (i2 + 1) : Nat) : Int) = ((k + 1 + i2 : Nat) : Int) := by
          push_cast
          ring
        rw [harith]
        exact this

theorem find_t0_some : ∀ (lns : List CLine) (se : Int) (k j : Nat), find_t0 se k lns = some j →
    ∃ i ln, j = k + i ∧ lns[i]? = some ln ∧ se < ((k + i : Nat) : Int) ∧ isT0 ln = true ∧
      ∀ i2 ln2, i2 < i → lns[i2]? = some ln2 →
        ¬(se < ((k + i2 : Nat) : Int) ∧ isT0 ln2 = true) := by
  intro lns
  induction lns with
  | nil =>
    intro se k j h
    simp [find_t0] at h
  | cons l0 rest ih =>
    intro se k j h
    rw [find_t0] at h
    split at h
    · rename_i hcond
      injection h with h
      subst h
      refine ⟨0, l0, by simp, by simp, by simpa using hcond.1, hcond.2, ?_⟩
      intro i2 ln2 hi2 _
      omega
    · rename_i hcond
      obtain ⟨i, ln, hj, hget, hlt, ht0, hmin⟩ := ih se (k + 1) j h
      refine ⟨i + 1, ln, by omega, by simpa using hget, ?_, ht0, ?_⟩
      · have harith : ((k + (i + 1) : Nat) : Int) = ((k + 1 + i : Nat) : Int) := by
          push_cast
          ring
        rw [harith]
        exact hlt
      · intro i2 ln2 hi2 hget2
        cases i2 with
        | zero =>
          rw [List.getElem?_cons_zero] at hget2
          injection hget2 with hget2
          subst hget2
          simpa using hcond
        | succ i3 =>
          rw [List.getElem?_cons_succ] at hget2
          have := hmin i3 ln2 (by omega) hget2
          have harith : ((k + (i3 + 1) : Nat) : Int) = ((k + 1 + i3 : Nat) : Int) := by
            push_cast
            ring
          rw [harith]
          exact this

/-- C10: after the base-class print-settings pass, the KISS-specific
pass deletes from the first layer exactly the first line that lies
strictly beyond start_gcode_end and selects tool 0, when such a line
exists, and deletes nothing otherwise; every other line of the first
layer, all later layers, and all other state fields are unchanged. -/
theorem c10_first_t0_deleted : ∀ (st : PState) (l0 : GLayer) (rest : List GLayer),
    st.layers = l0 :: rest →
    ∃ lns2,
      parse_print_settings st = {st with layers := {l0 with lines := lns2} :: rest} ∧
      ((∃ (i : Nat) (ln : CLine), l0.lines[i]? = some ln ∧ st.start_gcode_end < (i : Int) ∧ isT0 ln = true) →
        ∃ (i : Nat) (ln : CLine), l0.lines[i]? = some ln ∧ st.start_gcode_end < (i : Int) ∧ isT0 ln = true ∧
          (∀ (i2 : Nat) (ln2 : CLine), i2 < i → l0.lines[i2]? = some ln2 →
            ¬(st.start_gcode_end < (i2 : Int) ∧ isT0 ln2 = true)) ∧
          lns2 = l0.lines.eraseIdx i) ∧
      ((¬∃ (i : Nat) (ln : CLine), l0.lines[i]? = some ln ∧ st.start_gcode_end < (i : Int) ∧ isT0 ln = true) →
        lns2 = l0.lines) := by
  intro st l0 rest hst
  refine ⟨kiss_print_settings st.start_gcode_end l0.lines, ?_, ?_, ?_⟩
  · simp only [parse_print_settings, hst]
  · intro ⟨i, ln, hget, hlt, ht0⟩
    cases hf : find_t0 st.start_gcode_end 0 l0.lines with
    | none =>
      have := find_t0_none _ _ _ hf i ln hget
      simp only [Nat.zero_add] at this
      exact absurd ⟨hlt, ht0⟩ this
    | some j =>
      obtain ⟨i3, ln3, hj, hget3, hlt3, ht03, hmin3⟩ := find_t0_some _ _ _ _ hf
      simp only [Nat.zero_add] at hj hlt3 hmin3
      refine ⟨i3, ln3, hget3, hlt3, ht03, hmin3, ?_⟩
      unfold kiss_print_settings
      rw [hf, hj]
  · intro hno
    cases hf : find_t0 st.start_gcode_end 0 l0.lines with
    | none =>
      unfold kiss_print_settings
      rw [hf]
    | some j =>
      obtain ⟨i3, ln3, _, hget3, hlt3, ht03, _⟩ := find_t0_some _ _ _ _ hf
      simp only [Nat.zero_add] at hlt3
      exact absurd ⟨i3, ln3, hget3, hlt3, ht03⟩ hno

/-- Witness for c10_first_t0_deleted at a concrete state: the first
layer holds a start command and two tool-0 commands beyond the start
g-code. -/
theorem c10_witness :
    ∃ lns2,
      parse_print_settings egPrint = {egPrint with layers := {egPrintL0 with lines := lns2} :: [plainL 2 2]} ∧
      ((∃ (i : Nat) (ln : CLine), egPrintL0.lines[i]? = some ln ∧ egPrint.start_gcode_end < (i : Int) ∧ isT0 ln = true) →
        ∃ (i : Nat) (ln : CLine), egPrintL0.lines[i]? = some ln ∧ egPrint.start_gcode_end < (i : Int) ∧ isT0 ln = true ∧
          (∀ (i2 : Nat) (ln2 : CLine), i2 < i → egPrintL0.lines[i2]? = some ln2 →
            ¬(egPrint.start_gcode_end < (i2 : Int) ∧ isT0 ln2 = true)) ∧
          lns2 = egPrintL0.lines.eraseIdx i) ∧
      ((¬∃ (i : Nat) (ln : CLine), egPrintL0.lines[i]? = some ln ∧ egPrint.start_gcode_end < (i : Int) ∧ isT0 ln = true) →
        lns2 = egPrintL0.lines) :=
  c10_first_t0_deleted egPrint egPrintL0 [plainL 2 2] (by rfl)

theorem scanStep_facts (s c lrs : Nat) (h1 : 1 ≤ s) (h2 : c ≤ 2) :
    1 ≤ (scanStep (s, c) lrs).1.1 ∧ (scanStep (s, c) lrs).1.2 ≤ 2 ∧ 1 ≤ (scanStep (s, c) lrs).2 := by
  unfold scanStep
  by_cases hd : s < lrs
  · simp only [hd, if_true]
    by_cases h3 : 3 ≤ c + 1
    · simp only [h3, if_true]
      omega
    · simp only [h3, if_false]
      omega
  · simp only [hd, if_false]
    have h3 : ¬3 ≤ c := by omega
    simp only [h3, if_false]
    omega

theorem scanRecords_fst : ∀ (ps : List (Rat × Nat)) (sc : Nat × Nat),
    (scanRecords sc ps).map Prod.fst = ps.map Prod.fst := by
  intro ps
  induction ps with
  | nil => intro sc; rfl
  | cons p rest ih =>
    intro sc
    cases p with
    | mk z lrs => simp [scanRecords, ih]

theorem scanRecords_pos : ∀ (ps : List (Rat × Nat)) (sc : Nat × Nat),
    1 ≤ sc.1 → sc.2 ≤ 2 → ∀ p ∈ scanRecords sc ps, 1 ≤ p.2 := by
  intro ps
  induction ps with
  | nil =>
    intro sc _ _ p hp
    simp [scanRecords] at hp
  | cons q rest ih =>
    intro sc h1 h2 p hp
    cases q with
    | mk z lrs =>
      obtain ⟨hs1, hs2, hs3⟩ := scanStep_facts sc.1 sc.2 lrs h1 h2
      simp only [scanRecords, List.mem_cons] at hp
      cases hp with
      | inl h => subst h; exact hs3
      | inr h => exact ih _ hs1 hs2 p h

theorem scanFinal_pos : ∀ (ps : List (Rat × Nat)) (sc : Nat × Nat),
    1 ≤ sc.1 → sc.2 ≤ 2 → 1 ≤ scanFinal sc ps := by
  intro ps
  induction ps with
  | nil => intro sc h1 _; simpa [scanFinal] using h1
  | cons q rest ih =>
    intro sc h1 h2
    cases q with
    | mk z lrs =>
      obtain ⟨hs1, hs2, _⟩ := scanStep_facts sc.1 sc.2 lrs h1 h2
      rw [scanFinal]
      exact ih _ hs1 hs2

theorem lookupSlots_pos : ∀ (recs : List (Rat × Nat)) (z : Rat),
    z ∈ recs.map Prod.fst → (∀ p ∈ recs, 1 ≤ p.2) → 1 ≤ lookupSlots z recs := by
  intro recs
  induction recs with
  | nil =>
    intro z hz _
    simp at hz
  | cons q rest ih =>
    intro z hz hall
    cases q with
    | mk w s =>
      rw [lookupSlots]
      by_cases hw : w = z
      · simp only [hw, if_true]
        exact hall (w, s) (by simp)
      · simp only [hw, if_false]
        refine ih z ?_ (fun p hp => hall p (by simp [hp]))
        simp only [List.map_cons, List.mem_cons] at hz
        cases hz with
        | inl h => exact absurd h.symm hw
        | inr h => exact h

theorem slots_for_pos : ∀ (L : List GLayer) (z : Rat), z ∈ zsOf L → 1 ≤ slots_for L z := by
  intro L z hz
  unfold slots_for
  refine lookupSlots_pos _ z ?_ (scanRecords_pos _ _ (by norm_num) (by norm_num))
  rw [slot_records, scanRecords_fst]
  unfold pairsDesc
  simp only [List.map_map]
  have : (Prod.fst ∘ fun z => (z, reqOf L z)) = id := by
    funext w
    rfl
  rw [this]
  simpa using hz

theorem has_tool_changes_set_action (l : GLayer) (a : Option Act) (c : Nat) :
    has_tool_changes {l with action := a, tower_slots := c} = has_tool_changes l := by
  simp [has_tool_changes]

theorem tagSecond_mem : ∀ (ms : List GLayer) (cap filled : Nat) (l2 : GLayer),
    l2 ∈ tagSecond cap filled ms →
    ∃ m ∈ ms,
      (has_tool_changes m = true ∧ l2 = m) ∨
      (has_tool_changes m = false ∧
        ∃ a, (a = Act.infill ∨ a = Act.pass) ∧ l2 = {m with action := some a}) := by
  intro ms
  induction ms with
  | nil =>
    intro cap filled l2 h
    simp [tagSecond] at h
  | cons m0 rest ih =>
    intro cap filled l2 h
    rw [tagSecond] at h
    by_cases htc : has_tool_changes m0
    · rw [if_pos htc] at h
      rcases List.mem_cons.mp h with h | h
      · exact ⟨m0, by simp, Or.inl ⟨htc, h⟩⟩
      · obtain ⟨m, hm, hc⟩ := ih cap filled l2 h
        exact ⟨m, by simp [hm], hc⟩
    · rw [if_neg htc] at h
      by_cases hf : filled < cap
      · rw [if_pos hf] at h
        rcases List.mem_cons.mp h with h | h
        · exact ⟨m0, by simp, Or.inr ⟨by simpa using htc, Act.infill, Or.inl rfl, h⟩⟩
        · obtain ⟨m, hm, hc⟩ := ih cap (filled + 1) l2 h
          exact ⟨m, by simp [hm], hc⟩
      · rw [if_neg hf] at h
        rcases List.mem_cons.mp h with h | h
        · exact ⟨m0, by simp, Or.inr ⟨by simpa using htc, Act.pass, Or.inr rfl, h⟩⟩
        · obtain ⟨m, hm, hc⟩ := ih cap filled l2 h
          exact ⟨m, by simp [hm], hc⟩

theorem tagBucket_mem : ∀ (cap : Nat) (ls : List GLayer) (l2 : GLayer),
    l2 ∈ tagBucket cap ls →
    ∃ l ∈ ls,
      l2.z = l.z ∧ has_tool_changes l2 = has_tool_changes l ∧ l2.tower_slots = cap ∧
      ((has_tool_changes l = true ∧ l2.action = some Act.switch) ∨
       (has_tool_changes l = false ∧
         (l2.action = some Act.infill ∨ l2.action = some Act.pass))) := by
  intro cap ls l2 h
  obtain ⟨m, hm, hc⟩ := tagSecond_mem _ _ _ _ h
  obtain ⟨l, hl, hfl⟩ := List.mem_map.mp hm
  by_cases htc : has_tool_changes l
  · rw [if_pos htc] at hfl
    subst hfl
    rcases hc with ⟨hmtc, hl2⟩ | ⟨hmtc, _⟩
    · subst hl2
      exact ⟨l, hl, by simp, by simp [has_tool_changes], by simp,
        Or.inl ⟨htc, by simp⟩⟩
    · rw [has_tool_changes_set_action] at hmtc
      exact absurd htc (by simp [hmtc])
  · rw [if_neg htc] at hfl
    subst hfl
    rcases hc with ⟨hmtc, hl2⟩ | ⟨hmtc, a, ha, hl2⟩
    · have : has_tool_changes {l with tower_slots := cap} = has_tool_changes l := by
        simp [has_tool_changes]
      rw [this] at hmtc
      exact absurd hmtc (by simpa using htc)
    · subst hl2
      refine ⟨l, hl, by simp, by simp [has_tool_changes], by simp, ?_⟩
      refine Or.inr ⟨by simpa using htc, ?_⟩
      rcases ha with ha | ha
      · exact Or.inl (by simp [ha])
      · exact Or.inr (by simp [ha])

theorem filter_layers_spec : ∀ (L : List GLayer) (l2 : GLayer), l2 ∈ filter_layers L →
    1 ≤ slots_for L l2.z ∧ l2.tower_slots = slots_for L l2.z ∧
    ((has_tool_changes l2 = true ∧ l2.action = some Act.switch) ∨
     (has_tool_changes l2 = false ∧
       (l2.action = some Act.infill ∨ l2.action = some Act.pass))) := by
  intro L l2 h
  rw [filter_layers, List.mem_insertionSort] at h
  rw [tagAll] at h
  obtain ⟨z, hz, hmem⟩ := List.mem_flatMap.mp h
  have hpos : 1 ≤ slots_for L z := slots_for_pos L z hz
  rw [if_neg (by omega)] at hmem
  obtain ⟨l, hl, hzeq, htceq, hts, hact⟩ := tagBucket_mem _ _ _ hmem
  have hlz : l.z = z := by
    have := (List.mem_filter.mp hl).2
    simpa using this
  have hl2z : l2.z = z := by rw [hzeq, hlz]
  rw [hl2z]
  refine ⟨hpos, hts, ?_⟩
  rcases hact with ⟨h1, h2⟩ | ⟨h1, h2⟩
  · exact Or.inl ⟨by rw [htceq]; exact h1, h2⟩
  · exact Or.inr ⟨by rw [htceq]; exact h1, h2⟩

/-- C1 (counterexample): for Lex the required tool-change counts in
descending height order are 2, 0, 2, 0, 2 against an initial capacity of
1, so the capacity deficit holds at heights 5, 3 and 1 but never on
three (nor even two) consecutive distinct heights; the claim therefore
predicts that slots is never raised. The recorded slot table shows slots
being raised to 2 at height 1 nonetheless: the stall counter accumulates
across the non-deficit heights 4 and 2 because the code never resets it
on a non-deficit height. -/
theorem c1_counterexample :
    pairsDesc Lex = [(5, 2), (4, 0), (3, 2), (2, 0), (1, 2)] ∧
    slot_records Lex = [(5, 1), (4, 1), (3, 1), (2, 1), (1, 2)] := by
  decide

/-- C1 (amended): in the descending scan (where the counter always
satisfies count less-or-equal 2), slot capacity is raised exactly when a
deficit height is visited with two deficits already accumulated since
the last raise or the start of the scan — the deficits need not be
consecutive, because a non-deficit height leaves the counter unchanged
rather than resetting it; with fewer than three accumulated deficit
heights the capacity is never raised. -/
theorem c1_amended_cumulative_stall : ∀ s c lrs : Nat, c ≤ 2 →
    (((scanStep (s, c) lrs).1.1 ≠ s) ↔ (s < lrs ∧ c = 2)) ∧
    (s < lrs ∧ c = 2 → (scanStep (s, c) lrs).1 = (lrs, 0)) ∧
    (s < lrs ∧ c < 2 → (scanStep (s, c) lrs).1 = (s, c + 1)) ∧
    (¬s < lrs → (scanStep (s, c) lrs).1 = (s, c)) := by
  intro s c lrs h2
  by_cases hd : s < lrs
  · by_cases hc : c = 2
    · have hstep : scanStep (s, c) lrs = ((lrs, 0), lrs) := by
        simp [scanStep, hd, hc]
      rw [hstep]
      dsimp only
      exact ⟨⟨fun _ => ⟨hd, hc⟩, fun _ => by omega⟩, fun _ => rfl,
        fun h => by omega, fun h => absurd hd h⟩
    · have hc3 : ¬3 ≤ c + 1 := by omega
      have hstep : scanStep (s, c) lrs = ((s, c + 1), s) := by
        simp [scanStep, hd, hc3]
      rw [hstep]
      dsimp only
      exact ⟨⟨fun h => absurd rfl h, fun h => absurd h.2 hc⟩, fun h => absurd h.2 hc,
        fun _ => rfl, fun h => absurd hd h⟩
  · have hc3 : ¬3 ≤ c := by omega
    have hstep : scanStep (s, c) lrs = ((s, c), s) := by
      simp [scanStep, hd, hc3]
    rw [hstep]
    dsimp only
    exact ⟨⟨fun h => absurd rfl h, fun h => absurd h.1 hd⟩, fun h => absurd h.1 hd,
      fun h => absurd h.1 hd, fun _ => rfl⟩

/-- Witness for c1_amended_cumulative_stall at a deficit height reached
with two accumulated deficits. -/
theorem c1_witness :
    (((scanStep (1, 2) 2).1.1 ≠ 1) ↔ (1 < 2 ∧ 2 = 2)) ∧
    (1 < 2 ∧ 2 = 2 → (scanStep (1, 2) 2).1 = (2, 0)) ∧
    (1 < 2 ∧ 2 < 2 → (scanStep (1, 2) 2).1 = (1, 2 + 1)) ∧
    (¬1 < 2 → (scanStep (1, 2) 2).1 = (1, 2)) :=
  c1_amended_cumulative_stall 1 2 2 (by decide)

/-- C3: after allocation, every SWITCH-tagged layer has its tool-change
flag true, and whenever an INFILL-tagged layer exists, every tool-change
layer of the same height bucket is tagged SWITCH. -/
theorem c3_slot_priority : ∀ (L : List GLayer) (l2 : GLayer), l2 ∈ filter_layers L →
    (l2.action = some Act.switch → has_tool_changes l2 = true) ∧
    (l2.action = some Act.infill →
      ∀ l3 ∈ filter_layers L, l3.z = l2.z → has_tool_changes l3 = true →
        l3.action = some Act.switch) := by
  intro L l2 h
  obtain ⟨_, _, hact⟩ := filter_layers_spec L l2 h
  constructor
  · intro hsw
    rcases hact with ⟨h1, _⟩ | ⟨_, h2⟩
    · exact h1
    · rcases h2 with h2 | h2 <;> rw [hsw] at h2 <;> simp at h2
  · intro _ l3 h3 _ htc3
    obtain ⟨_, _, hact3⟩ := filter_layers_spec L l3 h3
    rcases hact3 with ⟨_, hsw3⟩ | ⟨hf3, _⟩
    · exact hsw3
    · rw [htc3] at hf3
      simp at hf3

/-- Witness for c3_slot_priority on a two-layer bucket at height 1. -/
theorem c3_witness :
    (switchL.action = some Act.switch → has_tool_changes switchL = true) ∧
    (switchL.action = some Act.infill →
      ∀ l3 ∈ filter_layers [tcL 1 1, plainL 2 1], l3.z = switchL.z →
        has_tool_changes l3 = true → l3.action = some Act.switch) :=
  c3_slot_priority [tcL 1 1, plainL 2 1] switchL (by decide)

/-- C9: after allocation every layer carries exactly one action, and a
layer tagged SWITCH or INFILL carries, and belongs to a bucket with,
a recorded slot capacity of at least 1. -/
theorem c9_action_coverage : ∀ (L : List GLayer) (l2 : GLayer), l2 ∈ filter_layers L →
    (∃ a, l2.action = some a) ∧
    ((l2.action = some Act.switch ∨ l2.action = some Act.infill) →
      l2.tower_slots = slots_for L l2.z ∧ 1 ≤ slots_for L l2.z) := by
  intro L l2 h
  obtain ⟨hpos, hts, hact⟩ := filter_layers_spec L l2 h
  constructor
  · rcases hact with ⟨_, h2⟩ | ⟨_, h2 | h2⟩ <;> exact ⟨_, h2⟩
  · intro _
    exact ⟨hts, hpos⟩

/-- Witness for c9_action_coverage on a single-layer bucket at height 1. -/
theorem c9_witness :
    (∃ a, infillL.action = some a) ∧
    ((infillL.action = some Act.switch ∨ infillL.action = some Act.infill) →
      infillL.tower_slots = slots_for [plainL 1 1] infillL.z ∧
        1 ≤ slots_for [plainL 1 1] infillL.z) :=
  c9_action_coverage [plainL 1 1] infillL (by decide)

theorem header_step_bad_firmware (acc : HAcc) (c v : String) (hfr : firmware_reached c)
    (hsplit : pySplitArg c = Except.ok v) (hv : v ≠ "1") :
    header_step acc ⟨none, some c⟩ = Except.error PyError.valueError := by
  obtain ⟨h1, h2, h3, h4, h5, h6, h7, h8, h9, h10, h11, h12, h13, h14, h15, h16, h17, h18, h19⟩ :=
    hfr
  simp [header_step, h1, h2, h3, h4, h5, h6, h7, h8, h9, h10, h11, h12, h13, h14, h15,
    h16, h17, h18, h19, hsplit, hv]

theorem header_fold_error_of_mem : ∀ (lns : List CLine) (acc : HAcc) (ln : CLine) (e0 : PyError),
    ln ∈ lns →
    (∀ acc2, header_step acc2 ln = Except.error e0) →
    ∃ e, header_fold acc lns = Except.error e := by
  intro lns
  induction lns with
  | nil =>
    intro acc ln e0 h _
    simp at h
  | cons l0 rest ih =>
    intro acc ln e0 hmem hstep
    rw [header_fold]
    rcases List.mem_cons.mp hmem with h | h
    · subst h
      rw [hstep acc]
      exact ⟨_, rfl⟩
    · cases hs : header_step acc l0 with
      | error e => exact ⟨e, rfl⟩
      | ok acc2 => exact ih acc2 ln e0 h hstep

/-- C5: when some comment-only header line carries the firmware
extrusion-mode flag with a value other than the accepted value 1 (and
the line is the firmware branch's, i.e. no earlier key pattern claims
it), parse_header raises, and process propagates that same error before
filter_layers ever runs, so no layer is tagged and no allocation output
is produced. -/
theorem c5_firmware_aborts_before_allocation : ∀ (st : PState) (c v : String),
    (∃ l ∈ st.layers, CLine.mk none (some c) ∈ l.lines) →
    firmware_reached c → pySplitArg c = Except.ok v → v ≠ "1" →
    ∃ e, parse_header st = Except.error e ∧ process st = Except.error e := by
  intro st c v hmem hfr hsplit hv
  obtain ⟨l, hl, hln⟩ := hmem
  have hln2 : CLine.mk none (some c) ∈ st.layers.flatMap (fun l => l.lines) :=
    List.mem_flatMap.mpr ⟨l, hl, hln⟩
  obtain ⟨e, hfold⟩ := header_fold_error_of_mem _ (st, 0, none) _ _ hln2
    (fun acc2 => header_step_bad_firmware acc2 c v hfr hsplit hv)
  have hph : parse_header st = Except.error e := by
    rw [parse_header, hfold]
  refine ⟨e, hph, ?_⟩
  rw [process, hph]

/-- Witness for c5_firmware_aborts_before_allocation at a state whose
only annotated line is firmware_type = 0. -/
theorem c5_witness :
    ∃ e, parse_header egFirmware = Except.error e ∧ process egFirmware = Except.error e :=
  c5_firmware_aborts_before_allocation egFirmware "firmware_type = 0" "0"
    (by decide) (by decide) (by rfl) (by decide)

/-- C7 (counterexample): one malformed decimal in the bed-size field
aborts the whole header pass with ValueError, instead of being isolated
to that field. -/
theorem c7_counterexample :
    parse_header egMalformed = Except.error PyError.valueError := by
  rfl

theorem except_mapU_error {α : Type} : ∀ (x : Except PyError α) (e : PyError),
    Except.map (fun _ => ()) x = Except.error e → x = Except.error e := by
  intro x e h
  cases x with
  | error e2 =>
    simp only [Except.map] at h
    injection h with h3
    rw [h3]
  | ok a =>
    simp [Except.map] at h

theorem pySplitArg_error_classify : ∀ (c : String) (e : PyError),
    pySplitArg c = Except.error e → e = PyError.indexError := by
  intro c e h
  unfold pySplitArg at h
  split at h
  · exact absurd h (by simp)
  · injection h with h2
    exact h2.symm

theorem floatArg_error_classify : ∀ (c : String) (e : PyError), floatArg c = Except.error e →
    e = PyError.valueError ∨ e = PyError.indexError := by
  intro c e h
  unfold floatArg at h
  split at h
  · rename_i e2 heq
    injection h with h3
    exact Or.inr (h3 ▸ pySplitArg_error_classify c e2 heq)
  · rename_i v heq
    split at h
    · injection h with h3
      exact Or.inl h3.symm
    · exact absurd h (by simp)

theorem intArg_error_classify : ∀ (c : String) (e : PyError), intArg c = Except.error e →
    e = PyError.valueError ∨ e = PyError.indexError := by
  intro c e h
  unfold intArg at h
  split at h
  · rename_i e2 heq
    injection h with h3
    exact Or.inr (h3 ▸ pySplitArg_error_classify c e2 heq)
  · rename_i v heq
    split at h
    · injection h with h3
      exact Or.inl h3.symm
    · exact absurd h (by simp)

theorem header_step_global_malformed : ∀ (acc : HAcc) (c : String) (i : Nat) (e : PyError),
    global_field_reached c i → global_arg i c = Except.error e →
    header_step acc ⟨none, some c⟩ = Except.error e ∧
      (e = PyError.valueError ∨ e = PyError.indexError) := by
  intro acc c i e hreach herr
  obtain ⟨hlen, hver, hprev, hkey⟩ := hreach
  obtain ⟨st, zoff, ct⟩ := acc
  have hlen10 : i < 10 := by simpa [numeric_keys] using hlen
  interval_cases i
  · have hk : strContains c "bed_size_x_mm =" = true := hkey
    have herr2 : Except.map (fun _ => ()) (floatArg c) = Except.error e := herr
    have hfa : floatArg c = Except.error e := except_mapU_error _ _ herr2
    refine ⟨?_, floatArg_error_classify _ _ hfa⟩
    simp [header_step, hver, hk, hfa]
  · have hp0 : strContains c "bed_size_x_mm =" = false := hprev "bed_size_x_mm =" (by decide)
    have hk : strContains c "bed_size_y_mm =" = true := hkey
    have herr2 : Except.map (fun _ => ()) (floatArg c) = Except.error e := herr
    have hfa : floatArg c = Except.error e := except_mapU_error _ _ herr2
    refine ⟨?_, floatArg_error_classify _ _ hfa⟩
    simp [header_step, hver, hp0, hk, hfa]
  · have hp0 : strContains c "bed_size_x_mm =" = false := hprev "bed_size_x_mm =" (by decide)
    have hp1 : strContains c "bed_size_y_mm =" = false := hprev "bed_size_y_mm =" (by decide)
    have hk : strContains c "bed_offset_x_mm =" = true := hkey
    have herr2 : Except.map (fun _ => ()) (floatArg c) = Except.error e := herr
    have hfa : floatArg c = Except.error e := except_mapU_error _ _ herr2
    refine ⟨?_, floatArg_error_classify _ _ hfa⟩
    simp [header_step, hver, hp0, hp1, hk, hfa]
  · have hp0 : strContains c "bed_size_x_mm =" = false := hprev "bed_size_x_mm =" (by decide)
    have hp1 : strContains c "bed_size_y_mm =" = false := hprev "bed_size_y_mm =" (by decide)
    have hp2 : strContains c "bed_offset_x_mm =" = false := hprev "bed_offset_x_mm =" (by decide)
    have hk : strContains c "bed_offset_y_mm =" = true := hkey
    have herr2 : Except.map (fun _ => ()) (floatArg c) = Except.error e := herr
    have hfa : floatArg c = Except.error e := except_mapU_error _ _ herr2
    refine ⟨?_, floatArg_error_classify _ _ hfa⟩
    simp [header_step, hver, hp0, hp1, hp2, hk, hfa]
  · have hp0 : strContains c "bed_size_x_mm =" = false := hprev "bed_size_x_mm =" (by decide)
    have hp1 : strContains c "bed_size_y_mm =" = false := hprev "bed_size_y_mm =" (by decide)
    have hp2 : strContains c "bed_offset_x_mm =" = false := hprev "bed_offset_x_mm =" (by decide)
    have hp3 : strContains c "bed_offset_y_mm =" = false := hprev "bed_offset_y_mm =" (by decide)
    have hk : strContains c "bed_offset_z_mm =" = true := hkey
    have herr2 : Except.map (fun _ => ()) (floatArg c) = Except.error e := herr
    have hfa : floatArg c = Except.error e := except_mapU_error _ _ herr2
    refine ⟨?_, floatArg_error_classify _ _ hfa⟩
    simp [header_step, hver, hp0, hp1, hp2, hp3, hk, hfa]
  · have hp0 : strContains c "bed_size_x_mm =" = false := hprev "bed_size_x_mm =" (by decide)
    have hp1 : strContains c "bed_size_y_mm =" = false := hprev "bed_size_y_mm =" (by decide)
    have hp2 : strContains c "bed_offset_x_mm =" = false := hprev "bed_offset_x_mm =" (by decide)
    have hp3 : strContains c "bed_offset_y_mm =" = false := hprev "bed_offset_y_mm =" (by decide)
    have hp4 : strContains c "bed_offset_z_mm =" = false := hprev "bed_offset_z_mm =" (by decide)
    have hk : strContains c "round_bed =" = true := hkey
    have herr2 : Except.map (fun _ => ()) (intArg c) = Except.error e := herr
    have hfa : intArg c = Except.error e := except_mapU_error _ _ herr2
    refine ⟨?_, intArg_error_classify _ _ hfa⟩
    simp [header_step, hver, hp0, hp1, hp2, hp3, hp4, hk, hfa]
  · have hp0 : strContains c "bed_size_x_mm =" = false := hprev "bed_size_x_mm =" (by decide)
    have hp1 : strContains c "bed_size_y_mm =" = false := hprev "bed_size_y_mm =" (by decide)
    have hp2 : strContains c "bed_offset_x_mm =" = false := hprev "bed_offset_x_mm =" (by decide)
    have hp3 : strContains c "bed_offset_y_mm =" = false := hprev "bed_offset_y_mm =" (by decide)
    have hp4 : strContains c "bed_offset_z_mm =" = false := hprev "bed_offset_z_mm =" (by decide)
    have hp5 : strContains c "round_bed =" = false := hprev "round_bed =" (by decide)
    have hk : strContains c "travel_speed_mm_per_s =" = true := hkey
    have herr2 : Except.map (fun _ => ()) (floatArg c) = Except.error e := herr
    have hfa : floatArg c = Except.error e := except_mapU_error _ _ herr2
    refine ⟨?_, floatArg_error_classify _ _ hfa⟩
    simp [header_step, hver, hp0, hp1, hp2, hp3, hp4, hp5, hk, hfa]
  · have hp0 : strContains c "bed_size_x_mm =" = false := hprev "bed_size_x_mm =" (by decide)
    have hp1 : strContains c "bed_size_y_mm =" = false := hprev "bed_size_y_mm =" (by decide)
    have hp2 : strContains c "bed_offset_x_mm =" = false := hprev "bed_offset_x_mm =" (by decide)
    have hp3 : strContains c "bed_offset_y_mm =" = false := hprev "bed_offset_y_mm =" (by decide)
    have hp4 : strContains c "bed_offset_z_mm =" = false := hprev "bed_offset_z_mm =" (by decide)
    have hp5 : strContains c "round_bed =" = false := hprev "round_bed =" (by decide)
    have hp6 : strContains c "travel_speed_mm_per_s =" = false := hprev "travel_speed_mm_per_s =" (by decide)
    have hk : strContains c "num_extruders = " = true := hkey
    have herr2 : Except.map (fun _ => ()) (intArg c) = Except.error e := herr
    have hfa : intArg c = Except.error e := except_mapU_error _ _ herr2
    refine ⟨?_, intArg_error_classify _ _ hfa⟩
    simp [header_step, hver, hp0, hp1, hp2, hp3, hp4, hp5, hp6, hk, hfa]
  · have hp0 : strContains c "bed_size_x_mm =" = false := hprev "bed_size_x_mm =" (by decide)
    have hp1 : strContains c "bed_size_y_mm =" = false := hprev "bed_size_y_mm =" (by decide)
    have hp2 : strContains c "bed_offset_x_mm =" = false := hprev "bed_offset_x_mm =" (by decide)
    have hp3 : strContains c "bed_offset_y_mm =" = false := hprev "bed_offset_y_mm =" (by decide)
    have hp4 : strContains c "bed_offset_z_mm =" = false := hprev "bed_offset_z_mm =" (by decide)
    have hp5 : strContains c "round_bed =" = false := hprev "round_bed =" (by decide)
    have hp6 : strContains c "travel_speed_mm_per_s =" = false := hprev "travel_speed_mm_per_s =" (by decide)
    have hp7 : strContains c "num_extruders = " = false := hprev "num_extruders = " (by decide)
    have hk : strContains c "first_layer_speed_mm_per_s =" = true := hkey
    have herr2 : Except.map (fun _ => ()) (floatArg c) = Except.error e := herr
    have hfa : floatArg c = Except.error e := except_mapU_error _ _ herr2
    refine ⟨?_, floatArg_error_classify _ _ hfa⟩
    simp [header_step, hver, hp0, hp1, hp2, hp3, hp4, hp5, hp6, hp7, hk, hfa]
  · have hp0 : strContains c "bed_size_x_mm =" = false := hprev "bed_size_x_mm =" (by decide)
    have hp1 : strContains c "bed_size_y_mm =" = false := hprev "bed_size_y_mm =" (by decide)
    have hp2 : strContains c "bed_offset_x_mm =" = false := hprev "bed_offset_x_mm =" (by decide)
    have hp3 : strContains c "bed_offset_y_mm =" = false := hprev "bed_offset_y_mm =" (by decide)
    have hp4 : strContains c "bed_offset_z_mm =" = false := hprev "bed_offset_z_mm =" (by decide)
    have hp5 : strContains c "round_bed =" = false := hprev "round_bed =" (by decide)
    have hp6 : strContains c "travel_speed_mm_per_s =" = false := hprev "travel_speed_mm_per_s =" (by decide)
    have hp7 : strContains c "num_extruders = " = false := hprev "num_extruders = " (by decide)
    have hp8 : strContains c "first_layer_speed_mm_per_s =" = false := hprev "first_layer_speed_mm_per_s =" (by decide)
    have hk : strContains c "Perimeter Speed =" = true := hkey
    have herr2 : Except.map (fun _ => ()) (floatArg c) = Except.error e := herr
    have hfa : floatArg c = Except.error e := except_mapU_error _ _ herr2
    refine ⟨?_, floatArg_error_classify _ _ hfa⟩
    simp [header_step, hver, hp0, hp1, hp2, hp3, hp4, hp5, hp6, hp7, hp8, hk, hfa]

theorem header_step_tool_malformed : ∀ (stp : PState) (zoff : Rat) (ct : Option Int)
    (c : String) (i : Nat) (e : PyError),
    ctTruthy ct = true → tool_field_reached c i → floatArg c = Except.error e →
    header_step (stp, zoff, ct) ⟨none, some c⟩ = Except.error e ∧
      (e = PyError.valueError ∨ e = PyError.indexError) := by
  intro stp zoff ct c i e hct hreach herr
  obtain ⟨hlen, hver, hglob, hmat, hprev, hkey⟩ := hreach
  have hlen5 : i < 5 := by simpa [tool_keys] using hlen
  interval_cases i
  · have hg0 : strContains c "bed_size_x_mm =" = false := hglob "bed_size_x_mm =" (by decide)
    have hg1 : strContains c "bed_size_y_mm =" = false := hglob "bed_size_y_mm =" (by decide)
    have hg2 : strContains c "bed_offset_x_mm =" = false := hglob "bed_offset_x_mm =" (by decide)
    have hg3 : strContains c "bed_offset_y_mm =" = false := hglob "bed_offset_y_mm =" (by decide)
    have hg4 : strContains c "bed_offset_z_mm =" = false := hglob "bed_offset_z_mm =" (by decide)
    have hg5 : strContains c "round_bed =" = false := hglob "round_bed =" (by decide)
    have hg6 : strContains c "travel_speed_mm_per_s =" = false := hglob "travel_speed_mm_per_s =" (by decide)
    have hg7 : strContains c "num_extruders = " = false := hglob "num_extruders = " (by decide)
    have hg8 : strContains c "first_layer_speed_mm_per_s =" = false := hglob "first_layer_speed_mm_per_s =" (by decide)
    have hg9 : strContains c "Perimeter Speed =" = false := hglob "Perimeter Speed =" (by decide)
    have hk : strContains c "destring_length =" = true := hkey
    refine ⟨?_, floatArg_error_classify _ _ herr⟩
    simp [header_step, hver, hg0, hg1, hg2, hg3, hg4, hg5, hg6, hg7, hg8, hg9, hmat, hct, hk, herr]
  · have hg0 : strContains c "bed_size_x_mm =" = false := hglob "bed_size_x_mm =" (by decide)
    have hg1 : strContains c "bed_size_y_mm =" = false := hglob "bed_size_y_mm =" (by decide)
    have hg2 : strContains c "bed_offset_x_mm =" = false := hglob "bed_offset_x_mm =" (by decide)
    have hg3 : strContains c "bed_offset_y_mm =" = false := hglob "bed_offset_y_mm =" (by decide)
    have hg4 : strContains c "bed_offset_z_mm =" = false := hglob "bed_offset_z_mm =" (by decide)
    have hg5 : strContains c "round_bed =" = false := hglob "round_bed =" (by decide)
    have hg6 : strContains c "travel_speed_mm_per_s =" = false := hglob "travel_speed_mm_per_s =" (by decide)
    have hg7 : strContains c "num_extruders = " = false := hglob "num_extruders = " (by decide)
    have hg8 : strContains c "first_layer_speed_mm_per_s =" = false := hglob "first_layer_speed_mm_per_s =" (by decide)
    have hg9 : strContains c "Perimeter Speed =" = false := hglob "Perimeter Speed =" (by decide)
    have hp0 : strContains c "destring_length =" = false := hprev "destring_length =" (by decide)
    have hk : strContains c "destring_speed_mm_per_s =" = true := hkey
    refine ⟨?_, floatArg_error_classify _ _ herr⟩
    simp [header_step, hver, hg0, hg1, hg2, hg3, hg4, hg5, hg6, hg7, hg8, hg9, hmat, hct, hp0, hk, herr]
  · have hg0 : strContains c "bed_size_x_mm =" = false := hglob "bed_size_x_mm =" (by decide)
    have hg1 : strContains c "bed_size_y_mm =" = false := hglob "bed_size_y_mm =" (by decide)
    have hg2 : strContains c "bed_offset_x_mm =" = false := hglob "bed_offset_x_mm =" (by decide)
    have hg3 : strContains c "bed_offset_y_mm =" = false := hglob "bed_offset_y_mm =" (by decide)
    have hg4 : strContains c "bed_offset_z_mm =" = false := hglob "bed_offset_z_mm =" (by decide)
    have hg5 : strContains c "round_bed =" = false := hglob "round_bed =" (by decide)
    have hg6 : strContains c "travel_speed_mm_per_s =" = false := hglob "travel_speed_mm_per_s =" (by decide)
    have hg7 : strContains c "num_extruders = " = false := hglob "num_extruders = " (by decide)
    have hg8 : strContains c "first_layer_speed_mm_per_s =" = false := hglob "first_layer_speed_mm_per_s =" (by decide)
    have hg9 : strContains c "Perimeter Speed =" = false := hglob "Perimeter Speed =" (by decide)
    have hp0 : strContains c "destring_length =" = false := hprev "destring_length =" (by decide)
    have hp1 : strContains c "destring_speed_mm_per_s =" = false := hprev "destring_speed_mm_per_s =" (by decide)
    have hk : strContains c "Z_lift_mm =" = true := hkey
    refine ⟨?_, floatArg_error_classify _ _ herr⟩
    simp [header_step, hver, hg0, hg1, hg2, hg3, hg4, hg5, hg6, hg7, hg8, hg9, hmat, hct, hp0, hp1, hk, herr]
  · have hg0 : strContains c "bed_size_x_mm =" = false := hglob "bed_size_x_mm =" (by decide)
    have hg1 : strContains c "bed_size_y_mm =" = false := hglob "bed_size_y_mm =" (by decide)
    have hg2 : strContains c "bed_offset_x_mm =" = false := hglob "bed_offset_x_mm =" (by decide)
    have hg3 : strContains c "bed_offset_y_mm =" = false := hglob "bed_offset_y_mm =" (by decide)
    have hg4 : strContains c "bed_offset_z_mm =" = false := hglob "bed_offset_z_mm =" (by decide)
    have hg5 : strContains c "round_bed =" = false := hglob "round_bed =" (by decide)
    have hg6 : strContains c "travel_speed_mm_per_s =" = false := hglob "travel_speed_mm_per_s =" (by decide)
    have hg7 : strContains c "num_extruders = " = false := hglob "num_extruders = " (by decide)
    have hg8 : strContains c "first_layer_speed_mm_per_s =" = false := hglob "first_layer_speed_mm_per_s =" (by decide)
    have hg9 : strContains c "Perimeter Speed =" = false := hglob "Perimeter Speed =" (by decide)
    have hp0 : strContains c "destring_length =" = false := hprev "destring_length =" (by decide)
    have hp1 : strContains c "destring_speed_mm_per_s =" = false := hprev "destring_speed_mm_per_s =" (by decide)
    have hp2 : strContains c "Z_lift_mm =" = false := hprev "Z_lift_mm =" (by decide)
    have hk : strContains c "wipe_mm =" = true := hkey
    refine ⟨?_, floatArg_error_classify _ _ herr⟩
    simp [header_step, hver, hg0, hg1, hg2, hg3, hg4, hg5, hg6, hg7, hg8, hg9, hmat, hct, hp0, hp1, hp2, hk, herr]
  · have hg0 : strContains c "bed_size_x_mm =" = false := hglob "bed_size_x_mm =" (by decide)
    have hg1 : strContains c "bed_size_y_mm =" = false := hglob "bed_size_y_mm =" (by decide)
    have hg2 : strContains c "bed_offset_x_mm =" = false := hglob "bed_offset_x_mm =" (by decide)
    have hg3 : strContains c "bed_offset_y_mm =" = false := hglob "bed_offset_y_mm =" (by decide)
    have hg4 : strContains c "bed_offset_z_mm =" = false := hglob "bed_offset_z_mm =" (by decide)
    have hg5 : strContains c "round_bed =" = false := hglob "round_bed =" (by decide)
    have hg6 : strContains c "travel_speed_mm_per_s =" = false := hglob "travel_speed_mm_per_s =" (by decide)
    have hg7 : strContains c "num_extruders = " = false := hglob "num_extruders = " (by decide)
    have hg8 : strContains c "first_layer_speed_mm_per_s =" = false := hglob "first_layer_speed_mm_per_s =" (by decide)
    have hg9 : strContains c "Perimeter Speed =" = false := hglob "Perimeter Speed =" (by decide)
    have hp0 : strContains c "destring_length =" = false := hprev "destring_length =" (by decide)
    have hp1 : strContains c "destring_speed_mm_per_s =" = false := hprev "destring_speed_mm_per_s =" (by decide)
    have hp2 : strContains c "Z_lift_mm =" = false := hprev "Z_lift_mm =" (by decide)
    have hp3 : strContains c "wipe_mm =" = false := hprev "wipe_mm =" (by decide)
    have hk : strContains c "flowrate_tweak =" = true := hkey
    refine ⟨?_, floatArg_error_classify _ _ herr⟩
    simp [header_step, hver, hg0, hg1, hg2, hg3, hg4, hg5, hg6, hg7, hg8, hg9, hmat, hct, hp0, hp1, hp2, hp3, hk, herr]

/-- C7 (amended): only the version field is exception-protected. First
conjunct: a comment that selects the version branch but fails the
version pattern leaves the interpreter state unchanged and processing
continues. Second and third conjuncts: a malformed value in any other
field where a decimal or integer is expected — each of the ten global
fields (bed size x/y, bed offset x/y/z, bed shape, travel speed,
extruder count, first-layer speed, perimeter speed) and each of the
five per-tool fields (retract distance, retract speed, z-hop, wipe
length, feed multiplier) — raises the parse error, which is ValueError
(or IndexError when the delimiter is missing). Fourth conjunct: such an
error in a global field aborts the whole header pass and the run. -/
theorem c7_amended_field_isolation :
    (∀ (acc : HAcc) (c : String), strContains c " version" = true → VERSION_RE_match c = none →
      header_step acc ⟨none, some c⟩ = Except.ok acc) ∧
    (∀ (acc : HAcc) (c : String) (i : Nat) (e : PyError), global_field_reached c i →
      global_arg i c = Except.error e →
      header_step acc ⟨none, some c⟩ = Except.error e ∧
        (e = PyError.valueError ∨ e = PyError.indexError)) ∧
    (∀ (stp : PState) (zoff : Rat) (ct : Option Int) (c : String) (i : Nat) (e : PyError),
      ctTruthy ct = true → tool_field_reached c i → floatArg c = Except.error e →
      header_step (stp, zoff, ct) ⟨none, some c⟩ = Except.error e ∧
        (e = PyError.valueError ∨ e = PyError.indexError)) ∧
    (∀ (st : PState) (c : String) (i : Nat) (e : PyError),
      (∃ l ∈ st.layers, CLine.mk none (some c) ∈ l.lines) →
      global_field_reached c i → global_arg i c = Except.error e →
      ∃ e2, parse_header st = Except.error e2 ∧ process st = Except.error e2) := by
  refine ⟨?_, ?_, ?_, ?_⟩
  · intro acc c h1 h2
    simp [header_step, h1, h2]
  · intro acc c i e hreach herr
    exact header_step_global_malformed acc c i e hreach herr
  · intro stp zoff ct c i e hct hreach herr
    exact header_step_tool_malformed stp zoff ct c i e hct hreach herr
  · intro st c i e hmem hreach herr
    obtain ⟨l, hl, hln⟩ := hmem
    have hln2 : CLine.mk none (some c) ∈ st.layers.flatMap (fun l => l.lines) :=
      List.mem_flatMap.mpr ⟨l, hl, hln⟩
    obtain ⟨e2, hfold⟩ := header_fold_error_of_mem _ (st, 0, none) _ _ hln2
      (fun acc2 => (header_step_global_malformed acc2 c i e hreach herr).1)
    have hph : parse_header st = Except.error e2 := by
      rw [parse_header, hfold]
    refine ⟨e2, hph, ?_⟩
    rw [process, hph]

/-- Witness for c7_amended_field_isolation: a malformed version line is
swallowed; a malformed bed-size value, treated as global field 1, and a
malformed per-tool wipe value, treated as tool field 3, each raise
ValueError; and the malformed bed-size state egMalformed aborts the
whole run. -/
theorem c7_witness :
    header_step ({}, 0, none) ⟨none, some " version x.y"⟩ = Except.ok ({}, 0, none) ∧
    (header_step ({}, 0, none) ⟨none, some "bed_size_y_mm = abc"⟩ =
        Except.error PyError.valueError ∧
      (PyError.valueError = PyError.valueError ∨ PyError.valueError = PyError.indexError)) ∧
    (header_step ({}, 0, some 1) ⟨none, some "wipe_mm = zz"⟩ = Except.error PyError.valueError ∧
      (PyError.valueError = PyError.valueError ∨ PyError.valueError = PyError.indexError)) ∧
    (∃ e2, parse_header egMalformed = Except.error e2 ∧ process egMalformed = Except.error e2) :=
  ⟨c7_amended_field_isolation.1 ({}, 0, none) " version x.y" (by decide) (by decide),
   c7_amended_field_isolation.2.1 ({}, 0, none) "bed_size_y_mm = abc" 1 PyError.valueError
     (by decide) (by rfl),
   c7_amended_field_isolation.2.2.1 {} 0 (some 1) "wipe_mm = zz" 3 PyError.valueError
     (by decide) (by decide) (by rfl),
   c7_amended_field_isolation.2.2.2 egMalformed "bed_size_x_mm = abc" 0 PyError.valueError
     (by decide) (by decide) (by rfl)⟩

/-- C8: the claim describes per-tool scoping that the code cannot
deliver. First conjunct: on the documented material-block boundary line
for extruder 2, the anchored ext_re match fails (the comment starts with
the asterisks, not with the word Material), so parse_header raises
AttributeError on the boundary line itself and no subsequent per-tool
setting is ever applied. Second conjunct: even with a current tool
established, tool index 0 is skipped by the per-tool branches because
the Python truthiness test on current_tool is false for 0, so a
destring_length line leaves the state unchanged. -/
theorem c8_material_scoping_broken :
    parse_header egMaterial = Except.error PyError.attributeError ∧
    header_step egAccT0 ⟨none, some "destring_length = 3"⟩ = Except.ok egAccT0 :=
  ⟨by rfl, by rfl⟩

theorem header_step_frame : ∀ (acc : HAcc) (ln : CLine) (acc2 : HAcc),
    header_step acc ln = Except.ok acc2 →
    acc2.1.tools = acc.1.tools ∧ acc2.1.tower_position_set = acc.1.tower_position_set ∧
    acc2.1.raft_added = acc.1.raft_added ∧ acc2.1.tool_change_added = acc.1.tool_change_added := by
  intro acc ln acc2 h
  obtain ⟨st, zoff, ct⟩ := acc
  obtain ⟨cmd, cmt⟩ := ln
  cases cmd with
  | some ck =>
    unfold header_step at h
    dsimp only at h
    injection h with hh
    subst hh
    exact ⟨rfl, rfl, rfl, rfl⟩
  | none =>
    cases cmt with
    | none =>
      unfold header_step at h
      dsimp only at h
      injection h with hh
      subst hh
      exact ⟨rfl, rfl, rfl, rfl⟩
    | some c =>
      unfold header_step at h
      dsimp only at h
      by_cases hK0 : strContains c " version" = true
      · rw [if_pos hK0] at h
        repeat' split at h
        all_goals
          first
            | (injection h with hh; subst hh; exact ⟨rfl, rfl, rfl, rfl⟩)
            | injection h
      · rw [if_neg hK0] at h
        by_cases hK1 : strContains c "bed_size_x_mm =" = true
        · rw [if_pos hK1] at h
          repeat' split at h
          all_goals
            first
              | (injection h with hh; subst hh; exact ⟨rfl, rfl, rfl, rfl⟩)
              | injection h
        · rw [if_neg hK1] at h
          by_cases hK2 : strContains c "bed_size_y_mm =" = true
          · rw [if_pos hK2] at h
            repeat' split at h
            all_goals
              first
                | (injection h with hh; subst hh; exact ⟨rfl, rfl, rfl, rfl⟩)
                | injection h
          · rw [if_neg hK2] at h
            by_cases hK3 : strContains c "bed_offset_x_mm =" = true
            · rw [if_pos hK3] at h
              repeat' split at h
              all_goals
                first
                  | (injection h with hh; subst hh; exact ⟨rfl, rfl, rfl, rfl⟩)
                  | injection h
            · rw [if_neg hK3] at h
              by_cases hK4 : strContains c "bed_offset_y_mm =" = true
              · rw [if_pos hK4] at h
                repeat' split at h
                all_goals
                  first
                    | (injection h with hh; subst hh; exact ⟨rfl, rfl, rfl, rfl⟩)
                    | injection h
              · rw [if_neg hK4] at h
                by_cases hK5 : strContains c "bed_offset_z_mm =" = true
                · rw [if_pos hK5] at h
                  repeat' split at h
                  all_goals
                    first
                      | (injection h with hh; subst hh; exact ⟨rfl, rfl, rfl, rfl⟩)
                      | injection h
                · rw [if_neg hK5] at h
                  by_cases hK6 : strContains c "round_bed =" = true
                  · rw [if_pos hK6] at h
                    repeat' split at h
                    all_goals
                      first
                        | (injection h with hh; subst hh; exact ⟨rfl, rfl, rfl, rfl⟩)
                        | injection h
                  · rw [if_neg hK6] at h
                    by_cases hK7 : strContains c "travel_speed_mm_per_s =" = true
                    · rw [if_pos hK7] at h
                      repeat' split at h
                      all_goals
                        first
                          | (injection h with hh; subst hh; exact ⟨rfl, rfl, rfl, rfl⟩)
                          | injection h
                    · rw [if_neg hK7] at h
                      by_cases hK8 : strContains c "num_extruders = " = true
                      · rw [if_pos hK8] at h
                        repeat' split at h
                        all_goals
                          first
                            | (injection h with hh; subst hh; exact ⟨rfl, rfl, rfl, rfl⟩)
                            | injection h
                      · rw [if_neg hK8] at h
                        by_cases hK9 : strContains c "first_layer_speed_mm_per_s =" = true
                        · rw [if_pos hK9] at h
                          repeat' split at h
                          all_goals
                            first
                              | (injection h with hh; subst hh; exact ⟨rfl, rfl, rfl, rfl⟩)
                              | injection h
                        · rw [if_neg hK9] at h
                          by_cases hK10 : strContains c "Perimeter Speed =" = true
                          · rw [if_pos hK10] at h
                            repeat' split at h
                            all_goals
                              first
                                | (injection h with hh; subst hh; exact ⟨rfl, rfl, rfl, rfl⟩)
                                | injection h
                          · rw [if_neg hK10] at h
                            by_cases hK11 : strContains c "*** Material Settings for Extruder" = true
                            · rw [if_pos hK11] at h
                              repeat' split at h
                              all_goals
                                first
                                  | (injection h with hh; subst hh; exact ⟨rfl, rfl, rfl, rfl⟩)
                                  | injection h
                            · rw [if_neg hK11] at h
                              by_cases hK12 : (ctTruthy ct && strContains c "destring_length =") = true
                              · rw [if_pos hK12] at h
                                repeat' split at h
                                all_goals
                                  first
                                    | (injection h with hh; subst hh; exact ⟨rfl, rfl, rfl, rfl⟩)
                                    | injection h
                              · rw [if_neg hK12] at h
                                by_cases hK13 : (ctTruthy ct && strContains c "destring_speed_mm_per_s =") = true
                                · rw [if_pos hK13] at h
                                  repeat' split at h
                                  all_goals
                                    first
                                      | (injection h with hh; subst hh; exact ⟨rfl, rfl, rfl, rfl⟩)
                                      | injection h
                                · rw [if_neg hK13] at h
                                  by_cases hK14 : (ctTruthy ct && strContains c "Z_lift_mm =") = true
                                  · rw [if_pos hK14] at h
                                    repeat' split at h
                                    all_goals
                                      first
                                        | (injection h with hh; subst hh; exact ⟨rfl, rfl, rfl, rfl⟩)
                                        | injection h
                                  · rw [if_neg hK14] at h
                                    by_cases hK15 : (ctTruthy ct && strContains c "wipe_mm =") = true
                                    · rw [if_pos hK15] at h
                                      repeat' split at h
                                      all_goals
                                        first
                                          | (injection h with hh; subst hh; exact ⟨rfl, rfl, rfl, rfl⟩)
                                          | injection h
                                    · rw [if_neg hK15] at h
                                      by_cases hK16 : (ctTruthy ct && strContains c "flowrate_tweak =") = true
                                      · rw [if_pos hK16] at h
                                        repeat' split at h
                                        all_goals
                                          first
                                            | (injection h with hh; subst hh; exact ⟨rfl, rfl, rfl, rfl⟩)
                                            | injection h
                                      · rw [if_neg hK16] at h
                                        by_cases hK17 : (ctTruthy ct && strContains c "g_code_matl =") = true
                                        · rw [if_pos hK17] at h
                                          repeat' split at h
                                          all_goals
                                            first
                                              | (injection h with hh; subst hh; exact ⟨rfl, rfl, rfl, rfl⟩)
                                              | injection h
                                        · rw [if_neg hK17] at h
                                          by_cases hK18 : strContains c "firmware_type =" = true
                                          · rw [if_pos hK18] at h
                                            repeat' split at h
                                            all_goals
                                              first
                                                | (injection h with hh; subst hh; exact ⟨rfl, rfl, rfl, rfl⟩)
                                                | injection h
                                          · rw [if_neg hK18] at h
                                            injection h with hh
                                            subst hh
                                            exact ⟨rfl, rfl, rfl, rfl⟩

theorem header_fold_frame : ∀ (lns : List CLine) (acc acc2 : HAcc),
    header_fold acc lns = Except.ok acc2 →
    acc2.1.tools = acc.1.tools ∧ acc2.1.tower_position_set = acc.1.tower_position_set ∧
    acc2.1.raft_added = acc.1.raft_added ∧ acc2.1.tool_change_added = acc.1.tool_change_added := by
  intro lns
  induction lns with
  | nil =>
    intro acc acc2 h
    rw [header_fold] at h
    injection h with h
    subst h
    exact ⟨rfl, rfl, rfl, rfl⟩
  | cons l0 rest ih =>
    intro acc acc2 h
    rw [header_fold] at h
    cases hs : header_step acc l0 with
    | error e => rw [hs] at h; exact absurd h (by simp)
    | ok accm =>
      rw [hs] at h
      obtain ⟨f1, f2, f3, f4⟩ := header_step_frame acc l0 accm hs
      obtain ⟨g1, g2, g3, g4⟩ := ih accm acc2 h
      exact ⟨g1.trans f1, g2.trans f2, g3.trans f3, g4.trans f4⟩

theorem parse_header_frame : ∀ (st st2 : PState), parse_header st = Except.ok st2 →
    st2.tools = st.tools ∧ st2.tower_position_set = st.tower_position_set ∧
    st2.raft_added = st.raft_added ∧ st2.tool_change_added = st.tool_change_added := by
  intro st st2 h
  rw [parse_header] at h
  cases hf : header_fold (st, 0, none) (st.layers.flatMap fun l => l.lines) with
  | error e => rw [hf] at h; exact absurd h (by simp)
  | ok res =>
    rw [hf] at h
    obtain ⟨stm, zoff, ct⟩ := res
    injection h with h
    subst h
    have := header_fold_frame _ (st, 0, none) (stm, zoff, ct) hf
    simpa using this

theorem pps_frame : ∀ st : PState, (parse_print_settings st).tools = st.tools ∧
    (parse_print_settings st).tower_position_set = st.tower_position_set ∧
    (parse_print_settings st).raft_added = st.raft_added ∧
    (parse_print_settings st).tool_change_added = st.tool_change_added := by
  intro st
  rw [parse_print_settings]
  rcases hl : st.layers with _ | ⟨l0, rest⟩
  · exact ⟨rfl, rfl, rfl, rfl⟩
  · exact ⟨rfl, rfl, rfl, rfl⟩

/-- C6 (counterexample): a run with a single configured tool still has
its layers allocated: process on egSingle (tools = 1) yields a state
whose max_slots is 1 and whose filtered layer is tagged INFILL, so the
allocator was invoked, contradicting the claim that no layer is tagged
and no slot capacity is computed. -/
theorem c6_counterexample :
    (process egSingle).map
        (fun s => (s.tools, s.max_slots, s.filtered_layers.map (fun l => l.action))) =
      Except.ok (1, 1, [some Act.infill]) := by
  rfl

/-- C6 (amended): with a configured tool count of at most 1, process
skips only the three tower phases (their invocation flags are left
untouched), while filter_layers still runs: the run-wide slot count is
computed (and is at least 1) and every filtered layer carries an
action. -/
theorem c6_amended_allocator_still_runs : ∀ (st st2 : PState), st.tools ≤ 1 →
    process st = Except.ok st2 →
    st2.tower_position_set = st.tower_position_set ∧ st2.raft_added = st.raft_added ∧
    st2.tool_change_added = st.tool_change_added ∧
    1 ≤ st2.max_slots ∧ ∀ l ∈ st2.filtered_layers, (l.action).isSome = true := by
  intro st st2 htools h
  rw [process] at h
  cases hph : parse_header st with
  | error e => rw [hph] at h; exact absurd h (by simp)
  | ok st1 =>
    rw [hph] at h
    obtain ⟨f1, f2, f3, f4⟩ := parse_header_frame st st1 hph
    obtain ⟨p1, p2, p3, p4⟩ := pps_frame st1
    have htools4 :
        (parse_perimeter_rates (filter_layers_phase (parse_print_settings st1))).tools
          = st.tools := by
      have hstep : (parse_perimeter_rates (filter_layers_phase (parse_print_settings st1))).tools
          = (parse_print_settings st1).tools := rfl
      rw [hstep, p1, f1]
    simp only [htools4] at h
    rw [if_neg (by omega)] at h
    injection h with h
    subst h
    refine ⟨?_, ?_, ?_, ?_, ?_⟩
    · calc (parse_perimeter_rates (filter_layers_phase (parse_print_settings st1))).tower_position_set
          = (parse_print_settings st1).tower_position_set := rfl
        _ = st1.tower_position_set := p2
        _ = st.tower_position_set := f2
    · calc (parse_perimeter_rates (filter_layers_phase (parse_print_settings st1))).raft_added
          = (parse_print_settings st1).raft_added := rfl
        _ = st1.raft_added := p3
        _ = st.raft_added := f3
    · calc (parse_perimeter_rates (filter_layers_phase (parse_print_settings st1))).tool_change_added
          = (parse_print_settings st1).tool_change_added := rfl
        _ = st1.tool_change_added := p4
        _ = st.tool_change_added := f4
    · have hms : (parse_perimeter_rates (filter_layers_phase (parse_print_settings st1))).max_slots
          = scanFinal (1, 0) (pairsDesc (parse_print_settings st1).layers) := rfl
      rw [hms]
      exact scanFinal_pos _ (1, 0) (by norm_num) (by norm_num)
    · intro l hl
      have hfl : (parse_perimeter_rates (filter_layers_phase (parse_print_settings st1))).filtered_layers
          = (filter_layers (parse_print_settings st1).layers).map
              (perimUpd (filter_layers_phase (parse_print_settings st1)).outer_perimeter_speed) := rfl
      rw [hfl] at hl
      obtain ⟨l0, hl0, hleq⟩ := List.mem_map.mp hl
      obtain ⟨_, _, hact⟩ := filter_layers_spec _ l0 hl0
      have hpa : l.action = l0.action := by
        rw [← hleq]
        rfl
      rw [hpa]
      rcases hact with ⟨_, ha⟩ | ⟨_, ha | ha⟩ <;> simp [ha]

/-- Witness for c6_amended_allocator_still_runs on the single-tool
state egSingle. -/
theorem c6_witness :
    egOut.tower_position_set = egSingle.tower_position_set ∧
    egOut.raft_added = egSingle.raft_added ∧
    egOut.tool_change_added = egSingle.tool_change_added ∧
    1 ≤ egOut.max_slots ∧ ∀ l ∈ egOut.filtered_layers, (l.action).isSome = true :=
  c6_amended_allocator_still_runs egSingle egOut (by decide) (by rfl)

end FS
